import Mathlib

/-!
# Verification of the `extract.ts` decode-and-persist pipeline

A shallow embedding of `src/extract.ts`: the data-URL stripping helper
`stripDataUrlPrefixAndGetBase64`, the per-field decoder/writer `decodeAndSave`,
the driver `processAnalysisResults`, and the requester `fetchMusicAnalysis`.

JavaScript strings are modelled as `List Char`; `Buffer` contents as `List Nat`
(bytes, each `< 256`).  Node's forgiving base64 decoder (`Buffer.from(s,
'base64')`) is modelled as a total function that skips characters outside the
base64 alphabet and stops at the first `=` padding character.  Filesystem and
network effects are modelled by explicit state passing over a `World` record,
with a fault oracle choosing which filesystem operations throw; a thrown
JavaScript exception is the `Outcome.exn` constructor, carrying the state at
the point of the throw.
-/

namespace Extract

/-- JavaScript string, modelled as its character sequence. -/
abbrev Str := List Char

/-- Byte sequence (`Buffer` contents); each element is intended `< 256`. -/
abbrev Bytes := List Nat

/-- Filesystem path. -/
abbrev Path := List Char

/-! ## Base64 (Node `Buffer.from(·, 'base64')` and standard encoding) -/

/-- The standard base64 alphabet, in value order. -/
def b64Alphabet : List Char :=
  "ABCDEFGHIJKLMNOPQRSTUVWXYZabcdefghijklmnopqrstuvwxyz0123456789+/".toList

/-- Character for a sextet value (`0 ≤ n < 64`). -/
def encChar (n : Nat) : Char := b64Alphabet.getD n 'A'

/-- Sextet value of a base64 character, `none` for characters outside the
alphabet. -/
def decChar (c : Char) : Option Nat := b64Alphabet.findIdx? (· = c)

/-- Standard base64 encoding of a byte sequence, with `=` padding. -/
def base64encode : Bytes → Str
  | [] => []
  | [b1] => [encChar (b1 / 4), encChar (b1 % 4 * 16), '=', '=']
  | [b1, b2] => [encChar (b1 / 4), encChar (b1 % 4 * 16 + b2 / 16),
      encChar (b2 % 16 * 4), '=']
  | b1 :: b2 :: b3 :: rest =>
      encChar (b1 / 4) :: encChar (b1 % 4 * 16 + b2 / 16) ::
      encChar (b2 % 16 * 4 + b3 / 64) :: encChar (b3 % 64) ::
      base64encode rest

/-- Forgiving scan of a base64 string into sextet values: characters outside
the alphabet are skipped, the first `=` ends the scan (Node's lenient
decoder). -/
def sextets : Str → List Nat
  | [] => []
  | c :: rest =>
      if c = '=' then []
      else
        match decChar c with
        | some v => v :: sextets rest
        | none => sextets rest

/-- Reassemble bytes from sextet values: groups of four sextets give three
bytes; a trailing group of three gives two bytes, of two gives one byte, and a
single trailing sextet is dropped. -/
def bytesFromSextets : List Nat → Bytes
  | s1 :: s2 :: s3 :: s4 :: rest =>
      (s1 * 4 + s2 / 16) :: (s2 % 16 * 16 + s3 / 4) :: (s3 % 4 * 64 + s4) ::
      bytesFromSextets rest
  | [s1, s2, s3] => [s1 * 4 + s2 / 16, s2 % 16 * 16 + s3 / 4]
  | [s1, s2] => [s1 * 4 + s2 / 16]
  | _ => []

/-- Node's `Buffer.from(s, 'base64')`: total, never throws; invalid characters
are skipped rather than rejected. -/
def base64decode (s : Str) : Bytes := bytesFromSextets (sextets s)


/-! ## String splitting and joining (JS `split(',')` / `join(',')`) -/

/-- JavaScript `s.split(',')`: always returns at least one part. -/
def splitOnComma : Str → List Str
  | [] => [[]]
  | c :: rest =>
      match splitOnComma rest with
      | [] => [[]]
      | p :: ps => if c = ',' then [] :: p :: ps else (c :: p) :: ps

/-- JavaScript `parts.join(',')`. -/
def joinWithComma : List Str → Str
  | [] => []
  | [p] => p
  | p :: ps => p ++ ',' :: joinWithComma ps


/-! ## Substring test (JS `String.prototype.includes`) -/

/-- JavaScript `hay.includes(needle)`. -/
def includesSub (hay needle : Str) : Bool :=
  match hay with
  | [] => needle.isEmpty
  | _ :: t => needle.isPrefixOf hay || includesSub t needle


/-! ## Effect model: console log, filesystem, exceptions

Each `console.log/warn/error` call site in `extract.ts` gets its own
`LogEntry` constructor, carrying the dynamic data interpolated into the
message.  The filesystem is a map from paths to byte contents plus a set of
created directories.  A fault oracle chooses which filesystem operations
throw; a failed write leaves behind whatever partial content the oracle says
(`none` = nothing). -/

/-- One console output line, tagged by call site (line numbers refer to
`src/extract.ts`). -/
inductive LogEntry where
  | stripWarn (snippet : Str)                     -- line 52
  | skipEmptyData (fileName : Str)                -- line 65
  | savedFile (fileName : Str) (filePath : Path)  -- line 72
  | decodeSaveError (fileName : Str) (filePath : Path)  -- line 74
  | problematicData (snippet : Str)               -- line 75
  | fetching (url : Str)                          -- line 88
  | apiRequestFailed (status : Nat) (body : Str)  -- line 106
  | fetchedOk                                     -- line 110
  | apiStatusWarn (status : Str)                  -- line 112
  | apiErrorLog (err : Str)                       -- line 113
  | fetchCaughtError                              -- line 117
  | noOutputData                                  -- line 128
  | apiErrorWas (err : Str)                       -- line 129
  | ensuredDir (dir : Path)                       -- line 134
  | savedAnalysisJson (filePath : Path)           -- line 148
  | analyzerProcessError                          -- line 150
  | problematicJson (snippet : Str)               -- line 151
  | savedErrorFile (filePath : Path)              -- line 159
  | analyzerEmptyAfterStrip                       -- line 162
  | analyzerMissing                               -- line 165
  | visualizationMissing                          -- line 173
  | audioHeader                                   -- line 183
  | fieldMissing (key : Str)                      -- line 192
  | finishedAll                                   -- line 195
  deriving DecidableEq

/-- Program state: filesystem contents plus console output (chronological). -/
structure World where
  dirs : Path → Bool
  files : Path → Option Bytes
  log : List LogEntry

/-- Result of running a piece of the program: normal return or a thrown
exception, in both cases with the state at that point. -/
inductive Outcome (α : Type) where
  | ok (a : α) (w : World)
  | exn (w : World)

/-- `true` iff the outcome is a thrown exception. -/
def Outcome.isExn {α : Type} : Outcome α → Bool
  | .ok _ _ => false
  | .exn _ => true

/-- Append console output. -/
def addLog (es : List LogEntry) (w : World) : World :=
  { w with log := w.log ++ es }

/-- Update one file entry. -/
def World.setFile (w : World) (p : Path) (v : Option Bytes) : World :=
  { w with files := fun q => if q = p then v else w.files q }

/-- Mark one directory as existing. -/
def World.setDir (w : World) (dir : Path) : World :=
  { w with dirs := fun q => if q = dir then true else w.dirs q }

/-- Fault oracle: which filesystem calls throw, and what a failed write
leaves behind at the target path. -/
structure FsOracle where
  mkdirFails : Path → Bool
  writeFails : Path → Bool
  unlinkFails : Path → Bool
  remnant : Path → Option Bytes

/-- `fs.mkdir(dir, { recursive: true })`. -/
def fsMkdir (o : FsOracle) (dir : Path) (w : World) : Outcome Unit :=
  if o.mkdirFails dir then .exn w
  else .ok () (w.setDir dir)

/-- `fs.writeFile(p, data)`; on failure, the path holds the oracle's partial
content. -/
def fsWriteFile (o : FsOracle) (p : Path) (data : Bytes) (w : World) : Outcome Unit :=
  if o.writeFails p then .exn (w.setFile p (o.remnant p))
  else .ok () (w.setFile p (some data))

/-- `fs.unlink(p)`. -/
def fsUnlink (o : FsOracle) (p : Path) (w : World) : Outcome Unit :=
  if o.unlinkFails p then .exn w
  else .ok () (w.setFile p none)

/-- JavaScript `try { body } catch { handler }`. -/
def tryCatch {α : Type} (body : World → Outcome α) (handler : World → Outcome α)
    (w : World) : Outcome α :=
  match body w with
  | .ok a w' => .ok a w'
  | .exn w' => handler w'

/-- `path.join(dir, name)` for a plain relative directory and file name. -/
def pathJoin (dir : Path) (name : Str) : Path := dir ++ '/' :: name

/-- The world at process start: empty filesystem, no console output. -/
def initWorld : World := ⟨fun _ => false, fun _ => none, []⟩


/-! ## The data-URL stripping helper (`extract.ts` lines 36–54) -/

/-- The marker searched for in the segment before the first comma. -/
def base64Marker : Str := ";base64".toList

/-- `stripDataUrlPrefixAndGetBase64` from `extract.ts`: returns the result
together with the console output the call emits.  `none` models the JS
`null` return (input `undefined` or the falsy empty string). -/
def stripDataUrlPrefixAndGetBase64 (dataUrlString : Option Str) :
    Option Str × List LogEntry :=
  match dataUrlString with
  | none => (none, [])
  | some s =>
      if s.isEmpty then (none, [])
      else
        let parts := splitOnComma s
        if parts.length > 1 && includesSub (parts.headD []) base64Marker then
          (some (joinWithComma (parts.drop 1)), [])
        else
          (some s, [.stripWarn (s.take 50)])

/-! ## JavaScript truthiness and `trim()` emptiness -/

/-- JS truthiness of a `string | undefined` value: `undefined` and `""` are
falsy. -/
def isTruthy : Option Str → Bool
  | none => false
  | some s => !s.isEmpty

/-- Whitespace characters removed by JS `String.prototype.trim` (the common
ones; the full set of further exotic Unicode space code points does not
matter for any statement below, which only ever distinguishes whitespace
from base64-alphabet characters). -/
def isJsSpace (c : Char) : Bool :=
  c = ' ' || c = '\t' || c = '\n' || c = '\r' ||
  c = Char.ofNat 11 || c = Char.ofNat 12 || c = Char.ofNat 0xA0 ||
  c = Char.ofNat 0xFEFF || c = Char.ofNat 0x2028 || c = Char.ofNat 0x2029

/-- `s.trim() === ""`: every character is whitespace. -/
def trimmedEmpty (s : Str) : Bool := s.all isJsSpace

/-! ## `decodeAndSave` (`extract.ts` lines 57–80) -/

/-- `decodeAndSave` from `extract.ts`: strip the data-URL prefix, decode the
base64 leniently, write the bytes; on any thrown error, log and best-effort
delete the partial file.  The nested `tryCatch` mirrors
`await fs.unlink(filePath).catch(() => {})` inside `try { } catch { }`. -/
def decodeAndSave (o : FsOracle) (dataUrlString : Option Str) (filePath : Path)
    (fileName : Str) (w : World) : Outcome Unit :=
  let strip := stripDataUrlPrefixAndGetBase64 dataUrlString
  let w1 := addLog strip.2 w
  match strip.1 with
  | none => .ok () (addLog [.skipEmptyData fileName] w1)
  | some base64Data =>
      if base64Data.isEmpty || trimmedEmpty base64Data then
        .ok () (addLog [.skipEmptyData fileName] w1)
      else
        tryCatch
          (fun w =>
            match fsWriteFile o filePath (base64decode base64Data) w with
            | .ok _ w' => .ok () (addLog [.savedFile fileName filePath] w')
            | .exn w' => .exn w')
          (fun w =>
            let w :=
              addLog [.decodeSaveError fileName filePath,
                .problematicData (base64Data.take 50)] w
            tryCatch
              (fun w => tryCatch (fun w => fsUnlink o filePath w) (fun w => .ok () w) w)
              (fun w => .ok () w) w)
          w1

/-! ## Data model (`extract.ts` lines 7–28) -/

/-- `MusicAnalysisOutput`: the fixed catalog of optional base64/data-URL
fields. -/
structure MusicAnalysisOutput where
  analyzer_result : Option Str := none
  demucs_bass : Option Str := none
  demucs_drums : Option Str := none
  demucs_guitar : Option Str := none
  demucs_other : Option Str := none
  demucs_piano : Option Str := none
  demucs_vocals : Option Str := none
  mdx_instrumental : Option Str := none
  mdx_other : Option Str := none
  mdx_vocals : Option Str := none
  sonification : Option Str := none
  visualization : Option Str := none
  deriving DecidableEq

/-- Dynamic read `output[key]` over the known field names (the code only ever
reads catalogued keys; unknown keys read as `undefined`). -/
def getField (out : MusicAnalysisOutput) (key : Str) : Option Str :=
  if key = "analyzer_result".toList then out.analyzer_result
  else if key = "demucs_bass".toList then out.demucs_bass
  else if key = "demucs_drums".toList then out.demucs_drums
  else if key = "demucs_guitar".toList then out.demucs_guitar
  else if key = "demucs_other".toList then out.demucs_other
  else if key = "demucs_piano".toList then out.demucs_piano
  else if key = "demucs_vocals".toList then out.demucs_vocals
  else if key = "mdx_instrumental".toList then out.mdx_instrumental
  else if key = "mdx_other".toList then out.mdx_other
  else if key = "mdx_vocals".toList then out.mdx_vocals
  else if key = "sonification".toList then out.sonification
  else if key = "visualization".toList then out.visualization
  else none

/-- `ApiPredictionResponse`.  The TypeScript interface declares `output` as
required, but the code guards `if (!apiResponse.output)`, so it is modelled
as optional. -/
structure ApiPredictionResponse where
  output : Option MusicAnalysisOutput
  logs : Option Str := none
  status : Option Str := none
  error : Option Str := none
  deriving DecidableEq

/-! ## The platform JSON codec

`JSON.parse(buffer.toString('utf-8'))` and
`fs.writeFile(p, JSON.stringify(x, null, 2))` are V8/Node builtins, modelled
abstractly as functions between UTF-8 byte sequences and JSON values of some
type `J`: `parse` returns `none` where `JSON.parse` would throw, and
`stringifyPretty j` is the byte content that writing
`JSON.stringify(j, null, 2)` produces. -/
structure JsonCodec (J : Type) where
  parse : Bytes → Option J
  stringifyPretty : J → Bytes

/-- UTF-8 bytes of an ASCII string (used for the fixed English text written
into the diagnostic file). -/
def asciiBytes (s : Str) : Bytes := s.map Char.toNat

/-- Header text written at `extract.ts:155`. -/
def errHeaderDecoded : Bytes :=
  asciiBytes "Attempted to decode this as JSON (from base64):\n\n".toList

/-- Header text written at `extract.ts:157`. -/
def errHeaderRaw : Bytes :=
  asciiBytes
    "Could not even base64 decode this for the error file. Original base64 (after prefix strip):\n\n".toList

/-- Diagnostic file name used at `extract.ts:152`. -/
def errorFileName : Str := "_error_analyzer_result_content.txt".toList

/-! ## `fetchMusicAnalysis` (`extract.ts` lines 83–120)

The network is modelled by a `Transport` value saying what the single `fetch`
call does: throw, return a non-ok response (whose `text()` may itself throw),
or return an ok response (whose `json()` may throw while parsing the body).
The `as ApiPredictionResponse` cast is unchecked in the source, so a
successful `json()` directly yields an `ApiPredictionResponse`. -/

/-- Behaviour of the one `fetch` call and its body readers. -/
inductive Transport where
  | fetchThrows
  | notOk (status : Nat) (textResult : Option Str)
  | okJson (jsonResult : Option ApiPredictionResponse)
  deriving DecidableEq

/-- `fetchMusicAnalysis` from `extract.ts`: never lets a transport fault
escape; returns `none` (JS `null`) on any failure. -/
def fetchMusicAnalysis (t : Transport) (musicInputUrl : Str) (w : World) :
    Outcome (Option ApiPredictionResponse) :=
  let w0 := addLog [.fetching musicInputUrl] w
  tryCatch
    (fun w =>
      match t with
      | .fetchThrows => .exn w
      | .notOk status textResult =>
          match textResult with
          | none => .exn w
          | some body => .ok none (addLog [.apiRequestFailed status body] w)
      | .okJson jsonResult =>
          match jsonResult with
          | none => .exn w
          | some data =>
              let w := addLog [.fetchedOk] w
              let w :=
                if isTruthy data.status && data.status != some "succeeded".toList then
                  let w := addLog [.apiStatusWarn (data.status.getD [])] w
                  if isTruthy data.error then addLog [.apiErrorLog (data.error.getD [])] w
                  else w
                else w
              .ok (some data) w)
    (fun w => .ok none (addLog [.fetchCaughtError] w))
    w0

/-! ## `processAnalysisResults` (`extract.ts` lines 123–196)

Split into one helper per source block: the `analyzer_result` JSON block
(lines 139–166), the `visualization` block (lines 169–174) and the audio-key
loop (lines 177–194); `processAnalysisResults` itself sequences them after
the missing-`output` guard and `fs.mkdir`. -/

/-- Lines 139–166: the `analyzer_result` JSON branch, with its nested
`try`/`catch`.  `JSON.parse` throwing is `codec.parse = none`; the diagnostic
file content re-encodes what `Buffer.toString('utf-8')` decoded, modelled
UTF-8-transparently as the decoded bytes themselves. -/
def analyzerResultStep {J : Type} (codec : JsonCodec J) (o : FsOracle)
    (output : MusicAnalysisOutput) (outputDir : Path) (w : World) : Outcome Unit :=
  if isTruthy output.analyzer_result then
    let analysisFilePath := pathJoin outputDir "analysis.json".toList
    let strip := stripDataUrlPrefixAndGetBase64 output.analyzer_result
    let w := addLog strip.2 w
    match strip.1 with
    | none => .ok () (addLog [.analyzerEmptyAfterStrip] w)
    | some base64JsonData =>
        if base64JsonData.isEmpty then .ok () (addLog [.analyzerEmptyAfterStrip] w)
        else
          tryCatch
            (fun w =>
              match codec.parse (base64decode base64JsonData) with
              | none => .exn w
              | some analysisData =>
                  match fsWriteFile o analysisFilePath
                      (codec.stringifyPretty analysisData) w with
                  | .ok _ w' => .ok () (addLog [.savedAnalysisJson analysisFilePath] w')
                  | .exn w' => .exn w')
            (fun w =>
              let w := addLog [.analyzerProcessError,
                .problematicJson (base64JsonData.take 50)] w
              let errorFilePath := pathJoin outputDir errorFileName
              match tryCatch
                  (fun w => fsWriteFile o errorFilePath
                    (errHeaderDecoded ++ base64decode base64JsonData) w)
                  (fun w => fsWriteFile o errorFilePath
                    (errHeaderRaw ++ asciiBytes base64JsonData) w) w with
              | .ok _ w' => .ok () (addLog [.savedErrorFile errorFilePath] w')
              | .exn w' => .exn w')
            w
  else .ok () (addLog [.analyzerMissing] w)

/-- Lines 169–174: the `visualization` block. -/
def visualizationStep (o : FsOracle) (output : MusicAnalysisOutput)
    (outputDir : Path) (w : World) : Outcome Unit :=
  if isTruthy output.visualization then
    decodeAndSave o output.visualization
      (pathJoin outputDir "visualization.png".toList) "visualization.png".toList w
  else .ok () (addLog [.visualizationMissing] w)

/-- Line 177: the fixed audio key catalog. -/
def audioFileKeys : List Str :=
  ["demucs_bass".toList, "demucs_drums".toList, "demucs_guitar".toList,
   "demucs_other".toList, "demucs_piano".toList, "demucs_vocals".toList,
   "mdx_instrumental".toList, "mdx_other".toList, "mdx_vocals".toList,
   "sonification".toList]

/-- Lines 184–193: one iteration of the audio loop. -/
def audioKeyStep (o : FsOracle) (output : MusicAnalysisOutput) (outputDir : Path)
    (key : Str) (w : World) : Outcome Unit :=
  let dataUrlString := getField output key
  if isTruthy dataUrlString then
    let ext := if key = "sonification".toList then ".mp3".toList else ".wav".toList
    let fileName := key ++ ext
    decodeAndSave o dataUrlString (pathJoin outputDir fileName) fileName w
  else .ok () (addLog [.fieldMissing key] w)

/-- The `for (const key of audioFileKeys)` loop. -/
def audioLoop (o : FsOracle) (output : MusicAnalysisOutput) (outputDir : Path) :
    List Str → World → Outcome Unit
  | [], w => .ok () w
  | key :: rest, w =>
      match audioKeyStep o output outputDir key w with
      | .ok _ w' => audioLoop o output outputDir rest w'
      | .exn w' => .exn w'

/-- `processAnalysisResults` from `extract.ts` (the spec's `persist`). -/
def processAnalysisResults {J : Type} (codec : JsonCodec J) (o : FsOracle)
    (apiResponse : ApiPredictionResponse) (outputDir : Path) (w : World) :
    Outcome Unit :=
  match apiResponse.output with
  | none =>
      let w := addLog [.noOutputData] w
      let w :=
        if isTruthy apiResponse.error then addLog [.apiErrorWas (apiResponse.error.getD [])] w
        else w
      .ok () w
  | some output =>
      match fsMkdir o outputDir w with
      | .exn w' => .exn w'
      | .ok _ w1 =>
          let w2 := addLog [.ensuredDir outputDir] w1
          match analyzerResultStep codec o output outputDir w2 with
          | .exn w' => .exn w'
          | .ok _ w3 =>
              match visualizationStep o output outputDir w3 with
              | .exn w' => .exn w'
              | .ok _ w4 =>
                  let w5 := addLog [.audioHeader] w4
                  match audioLoop o output outputDir audioFileKeys w5 with
                  | .exn w' => .exn w'
                  | .ok _ w6 => .ok () (addLog [.finishedAll] w6)

/-! ## Configuration constants (`extract.ts` lines 31–33) and concrete
instances used in closed statements -/

/-- `API_URL` from `extract.ts`. -/
def API_URL : Str := "https://music-analysis.lma.sh/predictions".toList

/-- `DEFAULT_MUSIC_INPUT_URL` from `extract.ts`. -/
def DEFAULT_MUSIC_INPUT_URL : Str :=
  "https://listmate-files.mateffy.me/examples/la_muerte.mp3".toList

/-- `OUTPUT_DIRECTORY` from `extract.ts`. -/
def OUTPUT_DIRECTORY : Path := "analysis_results".toList

/-- Build a data URL `data:<mime>;base64,<payload>`. -/
def mkDataUrl (mime payload : Str) : Str :=
  "data:".toList ++ mime ++ base64Marker ++ ',' :: payload

/-- The state a finished or faulted run ends in. -/
def Outcome.world {α : Type} : Outcome α → World
  | .ok _ w => w
  | .exn w => w

/-- UTF-8 bytes of the JSON text `null`. -/
def nullJsonBytes : Bytes := asciiBytes "null".toList

/-- A minimal concrete JSON codec (for evaluating closed statements): the
only JSON value is `null`. -/
def unitCodec : JsonCodec Unit :=
  ⟨fun bs => if bs = nullJsonBytes then some () else none, fun _ => nullJsonBytes⟩

/-- A filesystem where every operation succeeds. -/
def oracleOk : FsOracle := ⟨fun _ => false, fun _ => false, fun _ => false, fun _ => none⟩

/-- A filesystem where directory creation and deletion succeed but every
`writeFile` throws, leaving nothing behind. -/
def failWriteOracle : FsOracle :=
  ⟨fun _ => false, fun _ => true, fun _ => false, fun _ => none⟩

/-- A valid audio data URL (payload `TWFu` = bytes of `Man`). -/
def wavDataUrl : Str := "data:audio/wav;base64,TWFu".toList

/-- A valid image data URL. -/
def pngDataUrl : Str := "data:image/png;base64,TWFu".toList

/-- An output bundle whose `analyzer_result` carries base64 of unparseable
content (`AAAA` decodes to three zero bytes, which is not JSON). -/
def respBadJson : ApiPredictionResponse :=
  { output := some { analyzer_result := some "data:application/json;base64,AAAA".toList } }

/-- An output bundle whose `analyzer_result` payload `bnVsbA$==` contains the
invalid base64 character `$`, yet leniently decodes to the valid JSON text
`null`; every other catalogued field holds a valid data URL. -/
def respDollar : ApiPredictionResponse :=
  { output := some
      { analyzer_result := some "data:application/json;base64,bnVsbA$==".toList
        demucs_bass := some wavDataUrl
        demucs_drums := some wavDataUrl
        demucs_guitar := some wavDataUrl
        demucs_other := some wavDataUrl
        demucs_piano := some wavDataUrl
        demucs_vocals := some wavDataUrl
        mdx_instrumental := some wavDataUrl
        mdx_other := some wavDataUrl
        mdx_vocals := some wavDataUrl
        sonification := some wavDataUrl
        visualization := some pngDataUrl } }

/-- The file names the spec's catalog expects `persist` to produce when all
fields are populated (note: the list has twelve entries). -/
def expectedFileNames : List Str :=
  ["analysis.json".toList, "visualization.png".toList,
   "demucs_bass.wav".toList, "demucs_drums.wav".toList, "demucs_guitar.wav".toList,
   "demucs_other.wav".toList, "demucs_piano.wav".toList, "demucs_vocals.wav".toList,
   "mdx_instrumental.wav".toList, "mdx_other.wav".toList, "mdx_vocals.wav".toList,
   "sonification.mp3".toList]

/-- A bundle with every catalogued field holding a valid data URL
(`bnVsbA==` is base64 of the JSON text `null`). -/
def respAllValid : ApiPredictionResponse :=
  { output := some
      { analyzer_result := some "data:application/json;base64,bnVsbA==".toList
        demucs_bass := some wavDataUrl
        demucs_drums := some wavDataUrl
        demucs_guitar := some wavDataUrl
        demucs_other := some wavDataUrl
        demucs_piano := some wavDataUrl
        demucs_vocals := some wavDataUrl
        mdx_instrumental := some wavDataUrl
        mdx_other := some wavDataUrl
        mdx_vocals := some wavDataUrl
        sonification := some wavDataUrl
        visualization := some pngDataUrl } }

/-! ## Lemma layer -/

/-! ### Base64 lemmas -/

theorem decChar_encChar_fin : ∀ n : Fin 64, decChar (encChar n.val) = some n.val := by
  decide

theorem decChar_encChar {n : Nat} (h : n < 64) : decChar (encChar n) = some n :=
  decChar_encChar_fin ⟨n, h⟩

theorem encChar_ne_eq : ∀ n : Fin 64, (encChar n.val = '=') = False := by
  decide

theorem encChar_not_pad {n : Nat} (h : n < 64) : ¬ encChar n = '=' := by
  have := encChar_ne_eq ⟨n, h⟩
  simp only [this, not_false_iff]

/-- Scanning an in-alphabet character prepends its value. -/
theorem sextets_cons_enc {n : Nat} (h : n < 64) (rest : Str) :
    sextets (encChar n :: rest) = n :: sextets rest := by
  simp [sextets, decChar_encChar h, encChar_not_pad h]

theorem base64_roundtrip (bs : Bytes) (hb : ∀ b ∈ bs, b < 256) :
    base64decode (base64encode bs) = bs := by
  unfold base64decode
  induction bs using base64encode.induct with
  | case1 => simp [base64encode, sextets, bytesFromSextets]
  | case2 b1 =>
      have h1 : b1 < 256 := hb b1 (by simp)
      have e1 : b1 / 4 < 64 := by omega
      have e2 : b1 % 4 * 16 < 64 := by omega
      rw [base64encode, sextets_cons_enc e1, sextets_cons_enc e2]
      rw [show sextets ['=', '='] = [] from rfl]
      show bytesFromSextets [b1 / 4, b1 % 4 * 16] = [b1]
      unfold bytesFromSextets
      congr 1
      omega
  | case3 b1 b2 =>
      have h1 : b1 < 256 := hb b1 (by simp)
      have h2 : b2 < 256 := hb b2 (by simp)
      have e1 : b1 / 4 < 64 := by omega
      have e2 : b1 % 4 * 16 + b2 / 16 < 64 := by omega
      have e3 : b2 % 16 * 4 < 64 := by omega
      rw [base64encode, sextets_cons_enc e1, sextets_cons_enc e2, sextets_cons_enc e3]
      rw [show sextets ['='] = [] from rfl]
      show bytesFromSextets [b1 / 4, b1 % 4 * 16 + b2 / 16, b2 % 16 * 4] = [b1, b2]
      unfold bytesFromSextets
      congr 1
      · omega
      · congr 1
        omega
  | case4 b1 b2 b3 rest ih =>
      have h1 : b1 < 256 := hb b1 (by simp)
      have h2 : b2 < 256 := hb b2 (by simp)
      have h3 : b3 < 256 := hb b3 (by simp)
      have e1 : b1 / 4 < 64 := by omega
      have e2 : b1 % 4 * 16 + b2 / 16 < 64 := by omega
      have e3 : b2 % 16 * 4 + b3 / 64 < 64 := by omega
      have e4 : b3 % 64 < 64 := by omega
      rw [base64encode, sextets_cons_enc e1, sextets_cons_enc e2, sextets_cons_enc e3,
        sextets_cons_enc e4]
      rw [bytesFromSextets]
      have ih' := ih (fun b hbmem => hb b (by simp [hbmem]))
      rw [ih']
      congr 1
      · omega
      · congr 1
        · omega
        · congr 1
          omega

theorem encChar_mem_fin : ∀ n : Fin 64, encChar n.val ∈ b64Alphabet := by
  decide

/-- The encoder character table only produces alphabet characters. -/
theorem encChar_mem (n : Nat) : encChar n ∈ b64Alphabet := by
  rcases Nat.lt_or_ge n 64 with h | h
  · exact encChar_mem_fin ⟨n, h⟩
  · have hlen : b64Alphabet.length ≤ n := by
      have : b64Alphabet.length = 64 := by decide
      omega
    unfold encChar
    rw [List.getD_eq_default _ _ hlen]
    decide

/-- Every character produced by the encoder is either in the alphabet or the
padding character. -/
theorem base64encode_chars (bs : Bytes) :
    ∀ c ∈ base64encode bs, c ∈ b64Alphabet ∨ c = '=' := by
  induction bs using base64encode.induct with
  | case1 => simp [base64encode]
  | case2 b1 =>
      intro c hc
      simp only [base64encode, List.mem_cons, List.not_mem_nil, or_false] at hc
      rcases hc with h | h | h | h <;> subst h
      · exact Or.inl (encChar_mem _)
      · exact Or.inl (encChar_mem _)
      · exact Or.inr rfl
      · exact Or.inr rfl
  | case3 b1 b2 =>
      intro c hc
      simp only [base64encode, List.mem_cons, List.not_mem_nil, or_false] at hc
      rcases hc with h | h | h | h <;> subst h
      · exact Or.inl (encChar_mem _)
      · exact Or.inl (encChar_mem _)
      · exact Or.inl (encChar_mem _)
      · exact Or.inr rfl
  | case4 b1 b2 b3 rest ih =>
      intro c hc
      simp only [base64encode, List.mem_cons] at hc
      rcases hc with h | h | h | h | h
      · exact Or.inl (h ▸ encChar_mem _)
      · exact Or.inl (h ▸ encChar_mem _)
      · exact Or.inl (h ▸ encChar_mem _)
      · exact Or.inl (h ▸ encChar_mem _)
      · exact ih c h

/-- Encoding a non-empty byte sequence yields a non-empty string starting with
an alphabet character. -/
theorem base64encode_ne_nil {bs : Bytes} (h : bs ≠ []) : base64encode bs ≠ [] := by
  match bs, h with
  | [b1], _ => simp [base64encode]
  | [b1, b2], _ => simp [base64encode]
  | b1 :: b2 :: b3 :: rest, _ => simp [base64encode]

/-- The comma is not a character the encoder can produce. -/
theorem base64encode_no_comma (bs : Bytes) : ',' ∉ base64encode bs := by
  intro hmem
  rcases base64encode_chars bs ',' hmem with h | h
  · revert h
    decide
  · exact absurd h (by decide)

theorem splitOnComma_ne_nil (s : Str) : splitOnComma s ≠ [] := by
  induction s with
  | nil => simp [splitOnComma]
  | cons c rest ih =>
      unfold splitOnComma
      match h : splitOnComma rest with
      | [] => simp
      | p :: ps =>
          by_cases hc : c = ',' <;> simp [hc]

/-- Splitting a comma-free string gives a single part. -/
theorem splitOnComma_no_comma {s : Str} (h : ',' ∉ s) : splitOnComma s = [s] := by
  induction s with
  | nil => rfl
  | cons c rest ih =>
      have hc : ¬ c = ',' := fun hh => h (hh ▸ List.mem_cons_self c rest)
      have hrest : ',' ∉ rest := fun hh => h (List.mem_cons_of_mem c hh)
      unfold splitOnComma
      rw [ih hrest]
      simp [hc]

/-- Splitting at the first comma: the comma-free head becomes the first part. -/
theorem splitOnComma_append {pre : Str} (h : ',' ∉ pre) (suf : Str) :
    splitOnComma (pre ++ ',' :: suf) = pre :: splitOnComma suf := by
  induction pre with
  | nil =>
      match hs : splitOnComma suf with
      | [] => exact absurd hs (splitOnComma_ne_nil suf)
      | p :: ps => simp [splitOnComma, hs]
  | cons c rest ih =>
      have hc : ¬ c = ',' := fun hh => h (hh ▸ List.mem_cons_self c rest)
      have hrest : ',' ∉ rest := fun hh => h (List.mem_cons_of_mem c hh)
      simp [splitOnComma, ih hrest, hc]

/-- `join(',')` is a left inverse of `split(',')`. -/
theorem joinWithComma_splitOnComma (s : Str) : joinWithComma (splitOnComma s) = s := by
  induction s with
  | nil => rfl
  | cons c rest ih =>
      unfold splitOnComma
      match hs : splitOnComma rest with
      | [] => exact absurd hs (splitOnComma_ne_nil rest)
      | p :: ps =>
          rw [hs] at ih
          by_cases hc : c = ','
          · subst hc
            simpa [joinWithComma] using ih
          · simp only [if_neg hc]
            cases ps with
            | nil => simpa [joinWithComma] using congrArg (c :: ·) ih
            | cons q qs => simpa [joinWithComma] using congrArg (c :: ·) ih

theorem includesSub_of_isPrefixOf {hay needle : Str}
    (h : needle.isPrefixOf hay = true) : includesSub hay needle = true := by
  cases hay with
  | nil =>
      cases needle with
      | nil => rfl
      | cons c t => simp [List.isPrefixOf] at h
  | cons c t => simp [includesSub, h]

theorem includesSub_append_right {suf needle : Str}
    (h : includesSub suf needle = true) (pre : Str) :
    includesSub (pre ++ suf) needle = true := by
  induction pre with
  | nil => simpa using h
  | cons c rest ih => simp [includesSub, ih]

theorem isPrefixOf_self (s : Str) : s.isPrefixOf s = true := by
  induction s with
  | nil => rfl
  | cons c t ih => simp [List.isPrefixOf, ih]

theorem includesSub_append_self (pre s : Str) :
    includesSub (pre ++ s) s = true :=
  includesSub_append_right (includesSub_of_isPrefixOf (isPrefixOf_self s)) pre

/-! ### State-helper lemmas -/

theorem pathJoin_inj {dir : Path} {a b : Str} :
    pathJoin dir a = pathJoin dir b ↔ a = b := by
  constructor
  · intro h
    have h2 := List.append_cancel_left h
    exact (List.cons.inj h2).2
  · intro h
    rw [h]

@[simp] theorem setFile_files_same (w : World) (p : Path) (v : Option Bytes) :
    (w.setFile p v).files p = v := by
  simp [World.setFile]

theorem setFile_files_other (w : World) {p q : Path} (v : Option Bytes) (h : q ≠ p) :
    (w.setFile p v).files q = w.files q := by
  simp [World.setFile, h]

@[simp] theorem setFile_dirs (w : World) (p : Path) (v : Option Bytes) :
    (w.setFile p v).dirs = w.dirs := rfl

@[simp] theorem setFile_log (w : World) (p : Path) (v : Option Bytes) :
    (w.setFile p v).log = w.log := rfl

@[simp] theorem setDir_dirs_same (w : World) (dir : Path) :
    (w.setDir dir).dirs dir = true := by
  simp [World.setDir]

@[simp] theorem setDir_files (w : World) (dir : Path) :
    (w.setDir dir).files = w.files := rfl

@[simp] theorem setDir_log (w : World) (dir : Path) :
    (w.setDir dir).log = w.log := rfl

@[simp] theorem addLog_files (es : List LogEntry) (w : World) :
    (addLog es w).files = w.files := rfl

@[simp] theorem addLog_dirs (es : List LogEntry) (w : World) :
    (addLog es w).dirs = w.dirs := rfl

@[simp] theorem addLog_log (es : List LogEntry) (w : World) :
    (addLog es w).log = w.log ++ es := rfl

@[simp] theorem addLog_nil (w : World) : addLog [] w = w := by
  cases w
  simp [addLog]

/-! ### Emptiness and whitespace facts -/

theorem isEmpty_false_of_ne {α : Type} {l : List α} (h : l ≠ []) : l.isEmpty = false := by
  cases l with
  | nil => exact absurd rfl h
  | cons c t => rfl

theorem b64_not_space : ∀ c ∈ b64Alphabet, isJsSpace c = false := by
  decide

theorem isJsSpace_encChar (n : Nat) : isJsSpace (encChar n) = false :=
  b64_not_space _ (encChar_mem n)

theorem base64encode_isEmpty {bs : Bytes} (h : bs ≠ []) :
    (base64encode bs).isEmpty = false :=
  isEmpty_false_of_ne (base64encode_ne_nil h)

/-- An encoded non-empty byte sequence is not all-whitespace: `trim()` does
not empty it. -/
theorem trimmedEmpty_base64encode {bs : Bytes} (h : bs ≠ []) :
    trimmedEmpty (base64encode bs) = false := by
  match bs, h with
  | [b1], _ => simp [trimmedEmpty, base64encode, isJsSpace_encChar]
  | [b1, b2], _ => simp [trimmedEmpty, base64encode, isJsSpace_encChar]
  | b1 :: b2 :: b3 :: rest, _ => simp [trimmedEmpty, base64encode, isJsSpace_encChar]

/-! ### Characterizing the strip helper -/

/-- Decompose a string at its first comma. -/
theorem exists_first_comma {s : Str} (h : ',' ∈ s) :
    ∃ pre suf, s = pre ++ ',' :: suf ∧ ',' ∉ pre := by
  induction s with
  | nil => cases h
  | cons c rest ih =>
      by_cases hc : c = ','
      · exact ⟨[], rest, by simp [hc], by simp⟩
      · have hr : ',' ∈ rest := by
          rcases List.mem_cons.mp h with h1 | h1
          · exact absurd h1.symm hc
          · exact h1
        obtain ⟨pre, suf, heq, hpre⟩ := ih hr
        refine ⟨c :: pre, suf, by rw [heq]; rfl, ?_⟩
        intro hm
        rcases List.mem_cons.mp hm with h1 | h1
        · exact hc h1.symm
        · exact hpre h1

/-- Unfolding equation for the strip helper on a present string. -/
theorem strip_some_eq (s : Str) :
    stripDataUrlPrefixAndGetBase64 (some s) =
      if s.isEmpty then (none, [])
      else if (decide ((splitOnComma s).length > 1) &&
          includesSub ((splitOnComma s).headD []) base64Marker) then
        (some (joinWithComma ((splitOnComma s).drop 1)), [])
      else (some s, [.stripWarn (s.take 50)]) := rfl

/-- When the segment before the first comma carries the `;base64` marker, the
helper returns everything after that comma and warns about nothing. -/
theorem strip_after_first_comma {pre suf : Str} (hpre : ',' ∉ pre)
    (hmark : includesSub pre base64Marker = true) :
    stripDataUrlPrefixAndGetBase64 (some (pre ++ ',' :: suf)) = (some suf, []) := by
  have hne : (pre ++ ',' :: suf) ≠ [] := by simp
  rw [strip_some_eq, isEmpty_false_of_ne hne]
  simp only [Bool.false_eq_true, if_false]
  rw [splitOnComma_append hpre]
  cases hsp : splitOnComma suf with
  | nil => exact absurd hsp (splitOnComma_ne_nil suf)
  | cons q qs =>
      have hcond : (decide ((pre :: q :: qs).length > 1) &&
          includesSub ((pre :: q :: qs).headD []) base64Marker) = true := by
        simp [hmark]
      rw [if_pos hcond]
      have hjoin : joinWithComma (q :: qs) = suf := by
        rw [← hsp]
        exact joinWithComma_splitOnComma suf
      simp [hjoin]

/-- The strip helper on a well-formed data URL returns exactly the payload. -/
theorem strip_mkDataUrl {mime : Str} (hm : ',' ∉ mime) (payload : Str) :
    stripDataUrlPrefixAndGetBase64 (some (mkDataUrl mime payload)) = (some payload, []) := by
  have hpre : ',' ∉ ("data:".toList ++ mime ++ base64Marker) := by
    intro hmem
    rcases List.mem_append.mp hmem with h1 | h1
    · rcases List.mem_append.mp h1 with h2 | h2
      · revert h2
        decide
      · exact hm h2
    · revert h1
      decide
  have hmark : includesSub ("data:".toList ++ mime ++ base64Marker) base64Marker = true := by
    have := includesSub_append_self ("data:".toList ++ mime) base64Marker
    simpa [List.append_assoc] using this
  have h : stripDataUrlPrefixAndGetBase64
      (some (("data:".toList ++ mime ++ base64Marker) ++ ',' :: payload)) =
      (some payload, []) := strip_after_first_comma hpre hmark
  have hshape : mkDataUrl mime payload =
      ("data:".toList ++ mime ++ base64Marker) ++ ',' :: payload := by
    simp [mkDataUrl, List.append_assoc]
  rw [hshape]
  exact h

/-- The strip helper passes a non-matching non-empty string through unchanged,
with the diagnostic warning. -/
theorem strip_passthrough {s : Str} (hne : s ≠ [])
    (h : ∀ pre suf, s = pre ++ ',' :: suf → ',' ∉ pre →
      includesSub pre base64Marker = false) :
    stripDataUrlPrefixAndGetBase64 (some s) = (some s, [.stripWarn (s.take 50)]) := by
  rw [strip_some_eq, isEmpty_false_of_ne hne]
  simp only [Bool.false_eq_true, if_false]
  by_cases hc : ',' ∈ s
  · obtain ⟨pre, suf, heq, hpre⟩ := exists_first_comma hc
    have hmark := h pre suf heq hpre
    rw [heq, splitOnComma_append hpre]
    cases hsp : splitOnComma suf with
    | nil => exact absurd hsp (splitOnComma_ne_nil suf)
    | cons q qs =>
        have hcond : (decide ((pre :: q :: qs).length > 1) &&
            includesSub ((pre :: q :: qs).headD []) base64Marker) = false := by
          rw [show (pre :: q :: qs).headD [] = pre from rfl, hmark, Bool.and_false]
        rw [if_neg (by rw [hcond]; exact Bool.false_ne_true)]
  · rw [splitOnComma_no_comma hc]
    rw [if_neg (by simp)]

/-! ### `decodeAndSave` behaviour -/

/-- Successful path: strip succeeded, data non-empty, the write does not
fail.  The file receives the leniently decoded bytes — whatever the base64
data was. -/
theorem decodeAndSave_writes {o : FsOracle} {d : Option Str} {b64 : Str}
    {lg : List LogEntry} {p : Path} {n : Str} {w : World}
    (hstrip : stripDataUrlPrefixAndGetBase64 d = (some b64, lg))
    (hne : b64.isEmpty = false) (htr : trimmedEmpty b64 = false)
    (hw : o.writeFails p = false) :
    decodeAndSave o d p n w =
      .ok () (addLog [.savedFile n p]
        ((addLog lg w).setFile p (some (base64decode b64)))) := by
  simp only [decodeAndSave, hstrip, hne, htr, Bool.or_self, Bool.false_eq_true, if_false,
    tryCatch, fsWriteFile, hw]

/-- Failing write path: the error is logged together with the first 50
characters of the offending base64; the partial file is removed when the
best-effort `unlink` succeeds, and an `unlink` failure is swallowed. -/
theorem decodeAndSave_write_fails {o : FsOracle} {d : Option Str} {b64 : Str}
    {lg : List LogEntry} {p : Path} {n : Str} {w : World}
    (hstrip : stripDataUrlPrefixAndGetBase64 d = (some b64, lg))
    (hne : b64.isEmpty = false) (htr : trimmedEmpty b64 = false)
    (hw : o.writeFails p = true) :
    decodeAndSave o d p n w =
      .ok () (
        let w2 := addLog [.decodeSaveError n p, .problematicData (b64.take 50)]
          ((addLog lg w).setFile p (o.remnant p))
        if o.unlinkFails p then w2 else w2.setFile p none) := by
  by_cases hu : o.unlinkFails p
  · simp only [decodeAndSave, hstrip, hne, htr, Bool.or_self, Bool.false_eq_true, if_false,
      tryCatch, fsWriteFile, hw, if_true, fsUnlink, hu]
  · simp only [decodeAndSave, hstrip, hne, htr, Bool.or_self, Bool.false_eq_true, if_false,
      tryCatch, fsWriteFile, hw, if_true, fsUnlink, hu]

/-- `decodeAndSave` never lets an exception escape, and never touches the
directory set or any other path. -/
theorem decodeAndSave_ok (o : FsOracle) (d : Option Str) (p : Path) (n : Str)
    (w : World) :
    ∃ w', decodeAndSave o d p n w = .ok () w' ∧ w'.dirs = w.dirs ∧
      ∀ q, q ≠ p → w'.files q = w.files q := by
  rcases h : stripDataUrlPrefixAndGetBase64 d with ⟨res, lg⟩
  cases res with
  | none =>
      have heq : decodeAndSave o d p n w =
          .ok () (addLog [.skipEmptyData n] (addLog lg w)) := by
        simp only [decodeAndSave, h]
      exact ⟨_, heq, rfl, fun q _ => rfl⟩
  | some b64 =>
      by_cases hskip : (b64.isEmpty || trimmedEmpty b64) = true
      · have heq : decodeAndSave o d p n w =
            .ok () (addLog [.skipEmptyData n] (addLog lg w)) := by
          simp only [decodeAndSave, h, hskip, if_true]
        exact ⟨_, heq, rfl, fun q _ => rfl⟩
      · rw [Bool.not_eq_true] at hskip
        by_cases hw : o.writeFails p
        · by_cases hu : o.unlinkFails p
          · have heq : decodeAndSave o d p n w =
                .ok () (addLog [.decodeSaveError n p, .problematicData (b64.take 50)]
                  ((addLog lg w).setFile p (o.remnant p))) := by
              simp only [decodeAndSave, h, hskip, Bool.false_eq_true, if_false,
                tryCatch, fsWriteFile, hw, if_true, fsUnlink, hu]
            refine ⟨_, heq, rfl, fun q hq => ?_⟩
            simp [setFile_files_other _ _ hq]
          · rw [Bool.not_eq_true] at hu
            have heq : decodeAndSave o d p n w =
                .ok () ((addLog [.decodeSaveError n p, .problematicData (b64.take 50)]
                  ((addLog lg w).setFile p (o.remnant p))).setFile p none) := by
              simp only [decodeAndSave, h, hskip, Bool.false_eq_true, if_false,
                tryCatch, fsWriteFile, hw, if_true, fsUnlink, hu]
            refine ⟨_, heq, rfl, fun q hq => ?_⟩
            simp [setFile_files_other _ _ hq]
        · rw [Bool.not_eq_true] at hw
          have heq : decodeAndSave o d p n w =
              .ok () (addLog [.savedFile n p]
                ((addLog lg w).setFile p (some (base64decode b64)))) := by
            simp only [decodeAndSave, h, hskip, Bool.false_eq_true, if_false,
              tryCatch, fsWriteFile, hw]
          refine ⟨_, heq, rfl, fun q hq => ?_⟩
          simp [setFile_files_other _ _ hq]

/-- `decodeAndSave` on a well-formed data URL over valid bytes writes exactly
those bytes back (round-trip through the persist pipeline). -/
theorem decodeAndSave_dataUrl {o : FsOracle} {mime : Str} {bs : Bytes}
    {p : Path} {n : Str} {w : World}
    (hm : ',' ∉ mime) (hbs : ∀ b ∈ bs, b < 256) (hne : bs ≠ [])
    (hw : o.writeFails p = false) :
    decodeAndSave o (some (mkDataUrl mime (base64encode bs))) p n w =
      .ok () (addLog [.savedFile n p] (w.setFile p (some bs))) := by
  have h := @decodeAndSave_writes o (some (mkDataUrl mime (base64encode bs)))
    (base64encode bs) [] p n w (strip_mkDataUrl hm (base64encode bs))
    (base64encode_isEmpty hne) (trimmedEmpty_base64encode hne) hw
  rw [h, base64_roundtrip bs hbs, addLog_nil]

/-! ### `analyzerResultStep` behaviour -/

theorem strip_some_ne_empty {u b64 : Str} {lg : List LogEntry}
    (h : stripDataUrlPrefixAndGetBase64 (some u) = (some b64, lg)) :
    u.isEmpty = false := by
  cases hu : u.isEmpty with
  | true =>
      rw [strip_some_eq, hu, if_pos rfl] at h
      exact absurd (congrArg Prod.fst h) (by simp)
  | false => rfl

/-- Successful JSON path: parse succeeds, write succeeds; `analysis.json`
receives the re-serialized value. -/
theorem analyzerResultStep_writes {J : Type} {codec : JsonCodec J} {o : FsOracle}
    {output : MusicAnalysisOutput} {dir : Path} {w : World} {u b64 : Str}
    {lg : List LogEntry} {j : J}
    (hout : output.analyzer_result = some u)
    (hstrip : stripDataUrlPrefixAndGetBase64 (some u) = (some b64, lg))
    (hne : b64.isEmpty = false)
    (hparse : codec.parse (base64decode b64) = some j)
    (hw : o.writeFails (pathJoin dir "analysis.json".toList) = false) :
    analyzerResultStep codec o output dir w =
      .ok () (addLog [.savedAnalysisJson (pathJoin dir "analysis.json".toList)]
        ((addLog lg w).setFile (pathJoin dir "analysis.json".toList)
          (some (codec.stringifyPretty j)))) := by
  have hu : u.isEmpty = false := strip_some_ne_empty hstrip
  simp only [analyzerResultStep, hout, isTruthy, hu, Bool.not_false, if_true,
    hstrip, hne, Bool.false_eq_true, if_false, tryCatch, hparse, fsWriteFile, hw]

/-- Failing JSON path: the parse throws, the diagnostic file write succeeds;
`_error_analyzer_result_content.txt` receives the decoded content and
`analysis.json` is not written. -/
theorem analyzerResultStep_error_file {J : Type} {codec : JsonCodec J} {o : FsOracle}
    {output : MusicAnalysisOutput} {dir : Path} {w : World} {u b64 : Str}
    {lg : List LogEntry}
    (hout : output.analyzer_result = some u)
    (hstrip : stripDataUrlPrefixAndGetBase64 (some u) = (some b64, lg))
    (hne : b64.isEmpty = false)
    (hparse : codec.parse (base64decode b64) = none)
    (hw : o.writeFails (pathJoin dir errorFileName) = false) :
    analyzerResultStep codec o output dir w =
      .ok () (addLog [.savedErrorFile (pathJoin dir errorFileName)]
        ((addLog [.analyzerProcessError, .problematicJson (b64.take 50)]
            (addLog lg w)).setFile (pathJoin dir errorFileName)
          (some (errHeaderDecoded ++ base64decode b64)))) := by
  have hu : u.isEmpty = false := strip_some_ne_empty hstrip
  simp only [analyzerResultStep, hout, isTruthy, hu, Bool.not_false, if_true,
    hstrip, hne, Bool.false_eq_true, if_false, tryCatch, hparse, fsWriteFile, hw]

/-- The analyzer branch never lets an exception escape provided the
diagnostic-file write does not fail; it touches no directory and no path
other than `analysis.json` and the diagnostic file. -/
theorem analyzerResultStep_ok {J : Type} (codec : JsonCodec J) (o : FsOracle)
    (output : MusicAnalysisOutput) (dir : Path) (w : World)
    (hw : o.writeFails (pathJoin dir errorFileName) = false) :
    ∃ w', analyzerResultStep codec o output dir w = .ok () w' ∧
      w'.dirs = w.dirs ∧
      ∀ q, q ≠ pathJoin dir "analysis.json".toList → q ≠ pathJoin dir errorFileName →
        w'.files q = w.files q := by
  by_cases ht : isTruthy output.analyzer_result = true
  case neg =>
      rw [Bool.not_eq_true] at ht
      have heq : analyzerResultStep codec o output dir w =
          .ok () (addLog [.analyzerMissing] w) := by
        simp only [analyzerResultStep, ht, Bool.false_eq_true, if_false]
      exact ⟨_, heq, rfl, fun q _ _ => rfl⟩
  case pos =>
      rcases h : stripDataUrlPrefixAndGetBase64 output.analyzer_result with ⟨res, lg⟩
      cases res with
      | none =>
          have heq : analyzerResultStep codec o output dir w =
              .ok () (addLog [.analyzerEmptyAfterStrip] (addLog lg w)) := by
            simp only [analyzerResultStep, ht, if_true, h]
          exact ⟨_, heq, rfl, fun q _ _ => rfl⟩
      | some b64 =>
          by_cases hne : b64.isEmpty = true
          · have heq : analyzerResultStep codec o output dir w =
                .ok () (addLog [.analyzerEmptyAfterStrip] (addLog lg w)) := by
              simp only [analyzerResultStep, ht, if_true, h, hne]
            exact ⟨_, heq, rfl, fun q _ _ => rfl⟩
          · rw [Bool.not_eq_true] at hne
            cases hparse : codec.parse (base64decode b64) with
            | some j =>
                by_cases hwa : o.writeFails (pathJoin dir "analysis.json".toList) = true
                · have heq : analyzerResultStep codec o output dir w =
                      .ok () (addLog [.savedErrorFile (pathJoin dir errorFileName)]
                        ((addLog [.analyzerProcessError, .problematicJson (b64.take 50)]
                          ((addLog lg w).setFile (pathJoin dir "analysis.json".toList)
                            (o.remnant (pathJoin dir "analysis.json".toList)))).setFile
                          (pathJoin dir errorFileName)
                          (some (errHeaderDecoded ++ base64decode b64)))) := by
                    simp only [analyzerResultStep, ht, if_true, h, hne, Bool.false_eq_true,
                      if_false, tryCatch, hparse, fsWriteFile, hwa, hw]
                  refine ⟨_, heq, rfl, fun q hqa hqe => ?_⟩
                  simp only [addLog_files, setFile_files_other _ _ hqe,
                    setFile_files_other _ _ hqa]
                · rw [Bool.not_eq_true] at hwa
                  have heq : analyzerResultStep codec o output dir w =
                      .ok () (addLog [.savedAnalysisJson (pathJoin dir "analysis.json".toList)]
                        ((addLog lg w).setFile (pathJoin dir "analysis.json".toList)
                          (some (codec.stringifyPretty j)))) := by
                    simp only [analyzerResultStep, ht, if_true, h, hne, Bool.false_eq_true,
                      if_false, tryCatch, hparse, fsWriteFile, hwa]
                  refine ⟨_, heq, rfl, fun q hqa hqe => ?_⟩
                  simp only [addLog_files, setFile_files_other _ _ hqa]
            | none =>
                have heq : analyzerResultStep codec o output dir w =
                    .ok () (addLog [.savedErrorFile (pathJoin dir errorFileName)]
                      ((addLog [.analyzerProcessError, .problematicJson (b64.take 50)]
                          (addLog lg w)).setFile (pathJoin dir errorFileName)
                        (some (errHeaderDecoded ++ base64decode b64)))) := by
                  simp only [analyzerResultStep, ht, if_true, h, hne, Bool.false_eq_true,
                    if_false, tryCatch, hparse, fsWriteFile, hw]
                refine ⟨_, heq, rfl, fun q hqa hqe => ?_⟩
                simp only [addLog_files, setFile_files_other _ _ hqe]

/-! ### `visualizationStep` and audio-loop behaviour -/

theorem mkDataUrl_ne_nil (m p : Str) : mkDataUrl m p ≠ [] := by
  simp [mkDataUrl, base64Marker]

theorem isTruthy_mkDataUrl (m p : Str) : isTruthy (some (mkDataUrl m p)) = true := by
  simp only [isTruthy, isEmpty_false_of_ne (mkDataUrl_ne_nil m p), Bool.not_false]

/-- Successful visualization write. -/
theorem visualizationStep_writes {o : FsOracle} {output : MusicAnalysisOutput}
    {dir : Path} {w : World} {mime : Str} {bs : Bytes}
    (hout : output.visualization = some (mkDataUrl mime (base64encode bs)))
    (hm : ',' ∉ mime) (hbs : ∀ b ∈ bs, b < 256) (hne : bs ≠ [])
    (hw : o.writeFails (pathJoin dir "visualization.png".toList) = false) :
    visualizationStep o output dir w =
      .ok () (addLog [.savedFile "visualization.png".toList
          (pathJoin dir "visualization.png".toList)]
        (w.setFile (pathJoin dir "visualization.png".toList) (some bs))) := by
  simp only [visualizationStep, hout, isTruthy_mkDataUrl, if_true]
  exact decodeAndSave_dataUrl hm hbs hne hw

/-- The visualization block never lets an exception escape and touches only
its own path. -/
theorem visualizationStep_ok (o : FsOracle) (output : MusicAnalysisOutput)
    (dir : Path) (w : World) :
    ∃ w', visualizationStep o output dir w = .ok () w' := by
  unfold visualizationStep
  by_cases ht : isTruthy output.visualization = true
  · rw [ht, if_pos rfl]
    obtain ⟨w', hw', -, -⟩ := decodeAndSave_ok o output.visualization
      (pathJoin dir "visualization.png".toList) "visualization.png".toList w
    exact ⟨w', hw'⟩
  · rw [Bool.not_eq_true] at ht
    refine ⟨addLog [.visualizationMissing] w, ?_⟩
    rw [ht]
    simp

/-- One audio-loop iteration on a key holding a well-formed data URL. -/
theorem audioKeyStep_writes {o : FsOracle} {out : MusicAnalysisOutput}
    {dir : Path} {key : Str} {w : World} {mime : Str} {bs : Bytes} {fileName : Str}
    (hget : getField out key = some (mkDataUrl mime (base64encode bs)))
    (hm : ',' ∉ mime) (hbs : ∀ b ∈ bs, b < 256) (hne : bs ≠ [])
    (hfn : fileName =
      key ++ (if key = "sonification".toList then ".mp3".toList else ".wav".toList))
    (hw : o.writeFails (pathJoin dir fileName) = false) :
    audioKeyStep o out dir key w =
      .ok () (addLog [.savedFile fileName (pathJoin dir fileName)]
        (w.setFile (pathJoin dir fileName) (some bs))) := by
  subst hfn
  simp only [audioKeyStep, hget, isTruthy_mkDataUrl, if_true]
  exact decodeAndSave_dataUrl hm hbs hne hw

/-- One audio-loop iteration never lets an exception escape. -/
theorem audioKeyStep_ok (o : FsOracle) (out : MusicAnalysisOutput) (dir : Path)
    (key : Str) (w : World) :
    ∃ w', audioKeyStep o out dir key w = .ok () w' := by
  simp only [audioKeyStep]
  by_cases ht : isTruthy (getField out key) = true
  · rw [ht, if_pos rfl]
    obtain ⟨w', hw', -, -⟩ := decodeAndSave_ok o (getField out key) _ _ w
    exact ⟨w', hw'⟩
  · rw [Bool.not_eq_true] at ht
    refine ⟨addLog [.fieldMissing key] w, ?_⟩
    rw [ht]
    simp

/-- The audio loop never lets an exception escape. -/
theorem audioLoop_ok (o : FsOracle) (out : MusicAnalysisOutput) (dir : Path)
    (keys : List Str) : ∀ w, ∃ w', audioLoop o out dir keys w = .ok () w' := by
  induction keys with
  | nil => exact fun w => ⟨w, rfl⟩
  | cons key rest ih =>
      intro w
      obtain ⟨w1, h1⟩ := audioKeyStep_ok o out dir key w
      obtain ⟨w2, h2⟩ := ih w1
      exact ⟨w2, by simp only [audioLoop, h1, h2]⟩

/-! ## Claim theorems -/

/-- **C3.** Round-trip: for every byte sequence, encoding it to base64,
wrapping it as a data URL `data:<mime>;base64,<payload>`, then applying
`stripDataUrlPrefixAndGetBase64` followed by base64 decoding yields back
exactly the original bytes. -/
theorem claim_C3_strip_decode_roundtrip (bs : Bytes) (mime : Str)
    (hbs : ∀ b ∈ bs, b < 256) (hm : ',' ∉ mime) :
    ∃ payload lg,
      stripDataUrlPrefixAndGetBase64 (some (mkDataUrl mime (base64encode bs))) =
        (some payload, lg) ∧ base64decode payload = bs :=
  ⟨base64encode bs, [], strip_mkDataUrl hm (base64encode bs), base64_roundtrip bs hbs⟩

/-- Witness for C3 at bytes `[77, 97, 110]` and mime `image/png`. -/
theorem claim_C3_strip_decode_roundtrip_witness :
    ((∀ b ∈ ([77, 97, 110] : Bytes), b < 256) ∧ ',' ∉ "image/png".toList) ∧
      ∃ payload lg,
        stripDataUrlPrefixAndGetBase64
            (some (mkDataUrl "image/png".toList (base64encode [77, 97, 110]))) =
          (some payload, lg) ∧ base64decode payload = [77, 97, 110] :=
  ⟨⟨by decide, by decide⟩,
    claim_C3_strip_decode_roundtrip [77, 97, 110] "image/png".toList
      (by decide) (by decide)⟩

/-- **C7.** For every valid data URL `data:<mime>;base64,<payload>` (a mime
type contains no comma), the strip helper returns exactly the payload —
everything after the first comma, subsequent commas rejoined verbatim — and
warns about nothing. -/
theorem claim_C7_strip_returns_payload (mime payload : Str) (hm : ',' ∉ mime) :
    stripDataUrlPrefixAndGetBase64 (some (mkDataUrl mime payload)) =
      (some payload, []) :=
  strip_mkDataUrl hm payload

/-- Witness for C7 at mime `text/plain` and a payload containing commas. -/
theorem claim_C7_strip_returns_payload_witness :
    ',' ∉ "text/plain".toList ∧
      stripDataUrlPrefixAndGetBase64
          (some (mkDataUrl "text/plain".toList "QUJD,ZXh0cmE=".toList)) =
        (some "QUJD,ZXh0cmE=".toList, []) :=
  ⟨by decide,
    claim_C7_strip_returns_payload "text/plain".toList "QUJD,ZXh0cmE=".toList (by decide)⟩

/-- **C6, counterexample.** The empty string has no `;base64` marker before
its first comma (it has no comma at all), yet the strip helper returns `null`
and logs nothing — not the input unchanged with a warning, as the claim
states for every such string. -/
theorem claim_C6_counterexample :
    stripDataUrlPrefixAndGetBase64 (some []) = (none, []) ∧
      (none : Option Str) ≠ some [] := by
  exact ⟨rfl, by decide⟩

/-- **C6, amended.** For every *non-empty* string in which the segment before
the first comma carries no `;base64` marker (including strings with no comma),
the strip helper returns the input unchanged and logs the shape warning. -/
theorem claim_C6_passthrough_with_warning (s : Str) (hne : s ≠ [])
    (h : ∀ pre suf, s = pre ++ ',' :: suf → ',' ∉ pre →
      includesSub pre base64Marker = false) :
    stripDataUrlPrefixAndGetBase64 (some s) =
      (some s, [.stripWarn (s.take 50)]) :=
  strip_passthrough hne h

/-- Witness for amended C6 at the comma-free non-data-URL string `TWFu`. -/
theorem claim_C6_passthrough_with_warning_witness :
    ("TWFu".toList ≠ [] ∧ ',' ∉ "TWFu".toList) ∧
      stripDataUrlPrefixAndGetBase64 (some "TWFu".toList) =
        (some "TWFu".toList, [.stripWarn ("TWFu".toList.take 50)]) :=
  ⟨⟨by decide, by decide⟩,
    claim_C6_passthrough_with_warning "TWFu".toList (by decide)
      (fun pre suf heq _ => by
        have hmem : ',' ∈ "TWFu".toList := by
          rw [heq]
          exact List.mem_append_right pre (List.mem_cons_self ',' suf)
        exact absurd hmem (by decide))⟩

/-- **C9.** If the response carries no `output` bundle, no persistence is
attempted: `processAnalysisResults` returns after logging the error, without
creating the output directory and without writing any file. -/
theorem claim_C9_missing_output_no_persistence {J : Type} (codec : JsonCodec J)
    (o : FsOracle) (resp : ApiPredictionResponse) (dir : Path) (w : World)
    (h : resp.output = none) :
    ∃ w', processAnalysisResults codec o resp dir w = .ok () w' ∧
      w'.files = w.files ∧ w'.dirs = w.dirs ∧ .noOutputData ∈ w'.log := by
  by_cases he : isTruthy resp.error = true
  · have heq : processAnalysisResults codec o resp dir w =
        .ok () (addLog [.apiErrorWas (resp.error.getD [])] (addLog [.noOutputData] w)) := by
      simp only [processAnalysisResults, h, he, if_true]
    exact ⟨_, heq, rfl, rfl, by simp⟩
  · rw [Bool.not_eq_true] at he
    have heq : processAnalysisResults codec o resp dir w =
        .ok () (addLog [.noOutputData] w) := by
      simp only [processAnalysisResults, h, he, Bool.false_eq_true, if_false]
    exact ⟨_, heq, rfl, rfl, by simp⟩

/-- Witness for C9: a response with a `status` but no `output`. -/
theorem claim_C9_missing_output_no_persistence_witness :
    (({ output := none, status := some "failed".toList } :
        ApiPredictionResponse).output = none) ∧
      ∃ w', processAnalysisResults unitCodec oracleOk
          { output := none, status := some "failed".toList } OUTPUT_DIRECTORY
          initWorld = .ok () w' ∧
        w'.files = initWorld.files ∧ w'.dirs = initWorld.dirs ∧
        .noOutputData ∈ w'.log :=
  ⟨rfl, claim_C9_missing_output_no_persistence unitCodec oracleOk
    { output := none, status := some "failed".toList } OUTPUT_DIRECTORY initWorld rfl⟩

/-- **C10.** The lenient base64 decode is total: for every non-empty,
non-whitespace base64 datum surviving the strip (valid base64 or not), when
the filesystem write succeeds `decodeAndSave` writes the leniently decoded
bytes and its error branch is not taken — the final log is exactly the strip
output followed by the success line, with no error entries. -/
theorem claim_C10_decode_total_error_branch_only_on_write_failure
    {o : FsOracle} {d : Option Str} {b64 : Str} {lg : List LogEntry} {p : Path}
    {n : Str} {w : World}
    (hstrip : stripDataUrlPrefixAndGetBase64 d = (some b64, lg))
    (hne : b64.isEmpty = false) (htr : trimmedEmpty b64 = false)
    (hw : o.writeFails p = false) :
    ∃ w', decodeAndSave o d p n w = .ok () w' ∧
      w'.files p = some (base64decode b64) ∧
      w'.log = (w.log ++ lg) ++ [.savedFile n p] := by
  refine ⟨_, decodeAndSave_writes hstrip hne htr hw, ?_, ?_⟩
  · simp
  · simp

/-- Witness for C10: the invalid-base64 string `!!b@d#b64!!` (no data-URL
shape, so it passes through the strip with a warning) still produces a file
with the leniently decoded bytes of its alphabet characters `bdb64`. -/
theorem claim_C10_decode_total_error_branch_only_on_write_failure_witness :
    (stripDataUrlPrefixAndGetBase64 (some "!!b@d#b64!!".toList) =
        (some "!!b@d#b64!!".toList, [.stripWarn ("!!b@d#b64!!".toList.take 50)]) ∧
      "!!b@d#b64!!".toList.isEmpty = false ∧
      trimmedEmpty "!!b@d#b64!!".toList = false ∧
      oracleOk.writeFails (pathJoin OUTPUT_DIRECTORY "x.wav".toList) = false) ∧
      ∃ w', decodeAndSave oracleOk (some "!!b@d#b64!!".toList)
          (pathJoin OUTPUT_DIRECTORY "x.wav".toList) "x.wav".toList initWorld =
          .ok () w' ∧
        w'.files (pathJoin OUTPUT_DIRECTORY "x.wav".toList) =
          some (base64decode "!!b@d#b64!!".toList) ∧
        w'.log = (initWorld.log ++ [.stripWarn ("!!b@d#b64!!".toList.take 50)]) ++
          [.savedFile "x.wav".toList (pathJoin OUTPUT_DIRECTORY "x.wav".toList)] :=
  ⟨by decide,
    @claim_C10_decode_total_error_branch_only_on_write_failure oracleOk
      (some "!!b@d#b64!!".toList) "!!b@d#b64!!".toList
      [.stripWarn ("!!b@d#b64!!".toList.take 50)]
      (pathJoin OUTPUT_DIRECTORY "x.wav".toList) "x.wav".toList initWorld
      (by decide) (by decide) (by decide) rfl⟩

/-- **C8.** For every binary field, when the write fails the implementation
logs the error with the first 50 characters of the offending base64, then
attempts to delete the partially-written file: the function still returns
normally whether or not the deletion itself fails, the file is gone when the
deletion succeeds, and the partial content survives when it fails. -/
theorem claim_C8_write_failure_cleanup
    {o : FsOracle} {d : Option Str} {b64 : Str} {lg : List LogEntry} {p : Path}
    {n : Str} {w : World}
    (hstrip : stripDataUrlPrefixAndGetBase64 d = (some b64, lg))
    (hne : b64.isEmpty = false) (htr : trimmedEmpty b64 = false)
    (hw : o.writeFails p = true) :
    ∃ w', decodeAndSave o d p n w = .ok () w' ∧
      .decodeSaveError n p ∈ w'.log ∧
      .problematicData (b64.take 50) ∈ w'.log ∧
      (o.unlinkFails p = false → w'.files p = none) ∧
      (o.unlinkFails p = true → w'.files p = o.remnant p) := by
  have heq := @decodeAndSave_write_fails o d b64 lg p n w hstrip hne htr hw
  by_cases hu : o.unlinkFails p = true
  · rw [heq]
    simp only [hu, if_true]
    refine ⟨_, rfl, by simp, by simp, ?_, ?_⟩
    · intro hfalse
      simp at hfalse
    · intro _
      simp
  · rw [Bool.not_eq_true] at hu
    rw [heq]
    simp only [hu, Bool.false_eq_true, if_false]
    refine ⟨_, rfl, by simp, by simp, ?_, ?_⟩
    · intro _
      simp
    · intro htrue
      simp at htrue

/-- Witness for C8: a valid audio data URL against a filesystem whose writes
all fail (and whose unlinks succeed). -/
theorem claim_C8_write_failure_cleanup_witness :
    (stripDataUrlPrefixAndGetBase64 (some wavDataUrl) =
        ((some "TWFu".toList : Option Str), ([] : List LogEntry)) ∧
      "TWFu".toList.isEmpty = false ∧ trimmedEmpty "TWFu".toList = false ∧
      failWriteOracle.writeFails (pathJoin OUTPUT_DIRECTORY "demucs_bass.wav".toList) =
        true) ∧
      ∃ w', decodeAndSave failWriteOracle (some wavDataUrl)
          (pathJoin OUTPUT_DIRECTORY "demucs_bass.wav".toList)
          "demucs_bass.wav".toList initWorld = .ok () w' ∧
        .decodeSaveError "demucs_bass.wav".toList
          (pathJoin OUTPUT_DIRECTORY "demucs_bass.wav".toList) ∈ w'.log ∧
        .problematicData ("TWFu".toList.take 50) ∈ w'.log ∧
        (failWriteOracle.unlinkFails
            (pathJoin OUTPUT_DIRECTORY "demucs_bass.wav".toList) = false →
          w'.files (pathJoin OUTPUT_DIRECTORY "demucs_bass.wav".toList) = none) ∧
        (failWriteOracle.unlinkFails
            (pathJoin OUTPUT_DIRECTORY "demucs_bass.wav".toList) = true →
          w'.files (pathJoin OUTPUT_DIRECTORY "demucs_bass.wav".toList) =
            failWriteOracle.remnant
              (pathJoin OUTPUT_DIRECTORY "demucs_bass.wav".toList)) :=
  ⟨by decide,
    @claim_C8_write_failure_cleanup failWriteOracle (some wavDataUrl) "TWFu".toList []
      (pathJoin OUTPUT_DIRECTORY "demucs_bass.wav".toList) "demucs_bass.wav".toList
      initWorld (by decide) (by decide) (by decide) rfl⟩

/-- **C5.** The requester never propagates a fault: whatever the transport
does, `fetchMusicAnalysis` returns normally; it returns `null` unless the
response was ok with a parseable body, and on a non-ok response with a
readable body it logs status and body (read for diagnostics) before
returning `null`. -/
theorem claim_C5_fetch_never_propagates (t : Transport) (url : Str) (w : World) :
    ∃ w' r, fetchMusicAnalysis t url w = .ok r w' ∧
      ((∀ data, t ≠ .okJson (some data)) → r = none) ∧
      (∀ data, t = .okJson (some data) → r = some data) ∧
      (∀ status body, t = .notOk status (some body) →
        .apiRequestFailed status body ∈ w'.log) := by
  cases t with
  | fetchThrows =>
      refine ⟨addLog [.fetchCaughtError] (addLog [.fetching url] w), none, ?_,
        fun _ => rfl, fun d hd => ?_, fun s b hb => ?_⟩
      · rfl
      · cases hd
      · cases hb
  | notOk status textResult =>
      cases textResult with
      | none =>
          refine ⟨addLog [.fetchCaughtError] (addLog [.fetching url] w), none, ?_,
            fun _ => rfl, fun d hd => ?_, fun s b hb => ?_⟩
          · rfl
          · cases hd
          · cases hb
      | some body =>
          refine ⟨addLog [.apiRequestFailed status body] (addLog [.fetching url] w),
            none, ?_, fun _ => rfl, fun d hd => ?_, fun s b hb => ?_⟩
          · rfl
          · cases hd
          · cases hb
            simp
  | okJson jsonResult =>
      cases jsonResult with
      | none =>
          refine ⟨addLog [.fetchCaughtError] (addLog [.fetching url] w), none, ?_,
            fun _ => rfl, fun d hd => ?_, fun s b hb => ?_⟩
          · rfl
          · cases hd
          · cases hb
      | some data =>
          refine ⟨(fetchMusicAnalysis (.okJson (some data)) url w).world, some data, ?_,
            fun hno => absurd rfl (hno data), fun d hd => ?_, fun s b hb => ?_⟩
          · rfl
          · exact Transport.okJson.inj hd
          · cases hb

/-- Witness for C5: HTTP 500 with body `internal error` yields a normal
`null` return with the diagnostic log line. -/
theorem claim_C5_fetch_never_propagates_witness :
    ∃ w' r, fetchMusicAnalysis (.notOk 500 (some "internal error".toList))
        DEFAULT_MUSIC_INPUT_URL initWorld = .ok r w' ∧
      ((∀ data, (Transport.notOk 500 (some "internal error".toList)) ≠
        .okJson (some data)) → r = none) ∧
      (∀ data, (Transport.notOk 500 (some "internal error".toList)) =
        .okJson (some data) → r = some data) ∧
      (∀ status body, (Transport.notOk 500 (some "internal error".toList)) =
        .notOk status (some body) → .apiRequestFailed status body ∈ w'.log) :=
  claim_C5_fetch_never_propagates (.notOk 500 (some "internal error".toList))
    DEFAULT_MUSIC_INPUT_URL initWorld

/-- **C1, counterexample.** "persist never throws" fails once the filesystem
itself can fail: with every `writeFile` throwing, a bundle whose
`analyzer_result` does not parse as JSON reaches the `catch(e)` fallback
write at `extract.ts:157`, which is not inside any further `try` — the
exception escapes `processAnalysisResults`, and the remaining fields are
never processed (no completion log line). -/
theorem claim_C1_counterexample :
    (processAnalysisResults unitCodec failWriteOracle respBadJson
        OUTPUT_DIRECTORY initWorld).isExn = true ∧
      .finishedAll ∉ (processAnalysisResults unitCodec failWriteOracle respBadJson
        OUTPUT_DIRECTORY initWorld).world.log := by
  decide

/-- **C1, amended.** For every OutputBundle and output directory, provided
directory creation succeeds and the diagnostic-file write for the analyzer
field succeeds, persist never throws: every failure during processing of any
single field is caught and logged, causes only that artifact to be skipped,
and processing of the remaining fields continues to completion. -/
theorem claim_C1_never_throws_when_auxiliary_writes_succeed {J : Type}
    (codec : JsonCodec J) (o : FsOracle) (resp : ApiPredictionResponse)
    (dir : Path) (w : World)
    (hmk : o.mkdirFails dir = false)
    (herr : o.writeFails (pathJoin dir errorFileName) = false) :
    ∃ w', processAnalysisResults codec o resp dir w = .ok () w' ∧
      (resp.output ≠ none → .finishedAll ∈ w'.log) := by
  cases hout : resp.output with
  | none =>
      by_cases he : isTruthy resp.error = true
      · have heq : processAnalysisResults codec o resp dir w =
            .ok () (addLog [.apiErrorWas (resp.error.getD [])] (addLog [.noOutputData] w)) := by
          simp only [processAnalysisResults, hout, he, if_true]
        exact ⟨_, heq, fun hne => absurd rfl hne⟩
      · rw [Bool.not_eq_true] at he
        have heq : processAnalysisResults codec o resp dir w =
            .ok () (addLog [.noOutputData] w) := by
          simp only [processAnalysisResults, hout, he, Bool.false_eq_true, if_false]
        exact ⟨_, heq, fun hne => absurd rfl hne⟩
  | some output =>
      obtain ⟨w3, h3, -, -⟩ := analyzerResultStep_ok codec o output dir
        (addLog [.ensuredDir dir] (w.setDir dir)) herr
      obtain ⟨w4, h4⟩ := visualizationStep_ok o output dir w3
      obtain ⟨w6, h6⟩ := audioLoop_ok o output dir audioFileKeys
        (addLog [.audioHeader] w4)
      refine ⟨addLog [.finishedAll] w6, ?_, fun _ => by simp⟩
      simp only [processAnalysisResults, hout, fsMkdir, hmk, Bool.false_eq_true,
        if_false, h3, h4, h6]

/-- Witness for amended C1: the unparseable-JSON bundle against a healthy
filesystem — no throw, full completion. -/
theorem claim_C1_never_throws_when_auxiliary_writes_succeed_witness :
    (oracleOk.mkdirFails OUTPUT_DIRECTORY = false ∧
      oracleOk.writeFails (pathJoin OUTPUT_DIRECTORY errorFileName) = false) ∧
      ∃ w', processAnalysisResults unitCodec oracleOk respBadJson
          OUTPUT_DIRECTORY initWorld = .ok () w' ∧
        (respBadJson.output ≠ none → .finishedAll ∈ w'.log) :=
  ⟨⟨rfl, rfl⟩,
    claim_C1_never_throws_when_auxiliary_writes_succeed unitCodec oracleOk
      respBadJson OUTPUT_DIRECTORY initWorld rfl rfl⟩

/-- **C2, amended.** For every OutputBundle in which all twelve catalogued
fields hold valid data URLs over non-empty valid byte payloads (and the
analyzer payload parses as JSON), and a filesystem whose operations succeed,
`persist` creates the output directory and writes exactly the twelve expected
files with the decoded contents, and the written `analysis.json` parses back
to the object originally encoded in `analyzer_result`. -/
theorem claim_C2_all_fields_write_twelve_files {J : Type} (codec : JsonCodec J)
    (o : FsOracle) (dir : Path)
    (mA mV m1 m2 m3 m4 m5 m6 m7 m8 m9 m10 : Str)
    (jb : Bytes) (j : J)
    (bV b1 b2 b3 b4 b5 b6 b7 b8 b9 b10 : Bytes)
    (hmA : ',' ∉ mA) (hmV : ',' ∉ mV)
    (hm1 : ',' ∉ m1)
    (hm2 : ',' ∉ m2)
    (hm3 : ',' ∉ m3)
    (hm4 : ',' ∉ m4)
    (hm5 : ',' ∉ m5)
    (hm6 : ',' ∉ m6)
    (hm7 : ',' ∉ m7)
    (hm8 : ',' ∉ m8)
    (hm9 : ',' ∉ m9)
    (hm10 : ',' ∉ m10)
    (hjb : ∀ x ∈ jb, x < 256) (hjbne : jb ≠ [])
    (hparse : codec.parse jb = some j)
    (hrt : codec.parse (codec.stringifyPretty j) = some j)
    (hbV : ∀ x ∈ bV, x < 256) (hneV : bV ≠ [])
    (hb1 : ∀ x ∈ b1, x < 256) (hne1 : b1 ≠ [])
    (hb2 : ∀ x ∈ b2, x < 256) (hne2 : b2 ≠ [])
    (hb3 : ∀ x ∈ b3, x < 256) (hne3 : b3 ≠ [])
    (hb4 : ∀ x ∈ b4, x < 256) (hne4 : b4 ≠ [])
    (hb5 : ∀ x ∈ b5, x < 256) (hne5 : b5 ≠ [])
    (hb6 : ∀ x ∈ b6, x < 256) (hne6 : b6 ≠ [])
    (hb7 : ∀ x ∈ b7, x < 256) (hne7 : b7 ≠ [])
    (hb8 : ∀ x ∈ b8, x < 256) (hne8 : b8 ≠ [])
    (hb9 : ∀ x ∈ b9, x < 256) (hne9 : b9 ≠ [])
    (hb10 : ∀ x ∈ b10, x < 256) (hne10 : b10 ≠ [])
    (hw : ∀ p, o.writeFails p = false) (hmk : o.mkdirFails dir = false) :
    ∃ w', processAnalysisResults codec o
        { output := some { analyzer_result := some (mkDataUrl mA (base64encode jb)), demucs_bass := some (mkDataUrl m1 (base64encode b1)), demucs_drums := some (mkDataUrl m2 (base64encode b2)), demucs_guitar := some (mkDataUrl m3 (base64encode b3)), demucs_other := some (mkDataUrl m4 (base64encode b4)), demucs_piano := some (mkDataUrl m5 (base64encode b5)), demucs_vocals := some (mkDataUrl m6 (base64encode b6)), mdx_instrumental := some (mkDataUrl m7 (base64encode b7)), mdx_other := some (mkDataUrl m8 (base64encode b8)), mdx_vocals := some (mkDataUrl m9 (base64encode b9)), sonification := some (mkDataUrl m10 (base64encode b10)), visualization := some (mkDataUrl mV (base64encode bV)) } }
        dir initWorld = .ok () w' ∧
      w'.dirs dir = true ∧
      w'.files (pathJoin dir "analysis.json".toList) = some (codec.stringifyPretty j) ∧
      codec.parse ((w'.files (pathJoin dir "analysis.json".toList)).getD []) = some j ∧
      w'.files (pathJoin dir "visualization.png".toList) = some bV ∧
      w'.files (pathJoin dir "demucs_bass.wav".toList) = some b1 ∧
      w'.files (pathJoin dir "demucs_drums.wav".toList) = some b2 ∧
      w'.files (pathJoin dir "demucs_guitar.wav".toList) = some b3 ∧
      w'.files (pathJoin dir "demucs_other.wav".toList) = some b4 ∧
      w'.files (pathJoin dir "demucs_piano.wav".toList) = some b5 ∧
      w'.files (pathJoin dir "demucs_vocals.wav".toList) = some b6 ∧
      w'.files (pathJoin dir "mdx_instrumental.wav".toList) = some b7 ∧
      w'.files (pathJoin dir "mdx_other.wav".toList) = some b8 ∧
      w'.files (pathJoin dir "mdx_vocals.wav".toList) = some b9 ∧
      w'.files (pathJoin dir "sonification.mp3".toList) = some b10 ∧
      (∀ q, q ≠ pathJoin dir "analysis.json".toList → q ≠ pathJoin dir "visualization.png".toList → q ≠ pathJoin dir "demucs_bass.wav".toList → q ≠ pathJoin dir "demucs_drums.wav".toList → q ≠ pathJoin dir "demucs_guitar.wav".toList → q ≠ pathJoin dir "demucs_other.wav".toList → q ≠ pathJoin dir "demucs_piano.wav".toList → q ≠ pathJoin dir "demucs_vocals.wav".toList → q ≠ pathJoin dir "mdx_instrumental.wav".toList → q ≠ pathJoin dir "mdx_other.wav".toList → q ≠ pathJoin dir "mdx_vocals.wav".toList → q ≠ pathJoin dir "sonification.mp3".toList →
        w'.files q = none) := by
  have sA : ∀ wx : World, analyzerResultStep codec o
      { analyzer_result := some (mkDataUrl mA (base64encode jb)), demucs_bass := some (mkDataUrl m1 (base64encode b1)), demucs_drums := some (mkDataUrl m2 (base64encode b2)), demucs_guitar := some (mkDataUrl m3 (base64encode b3)), demucs_other := some (mkDataUrl m4 (base64encode b4)), demucs_piano := some (mkDataUrl m5 (base64encode b5)), demucs_vocals := some (mkDataUrl m6 (base64encode b6)), mdx_instrumental := some (mkDataUrl m7 (base64encode b7)), mdx_other := some (mkDataUrl m8 (base64encode b8)), mdx_vocals := some (mkDataUrl m9 (base64encode b9)), sonification := some (mkDataUrl m10 (base64encode b10)), visualization := some (mkDataUrl mV (base64encode bV)) } dir wx =
      .ok () (addLog [.savedAnalysisJson (pathJoin dir "analysis.json".toList)]
        (wx.setFile (pathJoin dir "analysis.json".toList) (some (codec.stringifyPretty j)))) := by
    intro wx
    rw [analyzerResultStep_writes rfl (strip_mkDataUrl hmA (base64encode jb))
      (base64encode_isEmpty hjbne)
      (by rw [base64_roundtrip jb hjb]; exact hparse) (hw _), addLog_nil]
  have sV : ∀ wx : World, visualizationStep o
      { analyzer_result := some (mkDataUrl mA (base64encode jb)), demucs_bass := some (mkDataUrl m1 (base64encode b1)), demucs_drums := some (mkDataUrl m2 (base64encode b2)), demucs_guitar := some (mkDataUrl m3 (base64encode b3)), demucs_other := some (mkDataUrl m4 (base64encode b4)), demucs_piano := some (mkDataUrl m5 (base64encode b5)), demucs_vocals := some (mkDataUrl m6 (base64encode b6)), mdx_instrumental := some (mkDataUrl m7 (base64encode b7)), mdx_other := some (mkDataUrl m8 (base64encode b8)), mdx_vocals := some (mkDataUrl m9 (base64encode b9)), sonification := some (mkDataUrl m10 (base64encode b10)), visualization := some (mkDataUrl mV (base64encode bV)) } dir wx =
      .ok () (addLog [.savedFile "visualization.png".toList (pathJoin dir "visualization.png".toList)]
        (wx.setFile (pathJoin dir "visualization.png".toList) (some bV))) :=
    fun wx => visualizationStep_writes rfl hmV hbV hneV (hw _)
  have s1 : ∀ wx : World, audioKeyStep o
      { analyzer_result := some (mkDataUrl mA (base64encode jb)), demucs_bass := some (mkDataUrl m1 (base64encode b1)), demucs_drums := some (mkDataUrl m2 (base64encode b2)), demucs_guitar := some (mkDataUrl m3 (base64encode b3)), demucs_other := some (mkDataUrl m4 (base64encode b4)), demucs_piano := some (mkDataUrl m5 (base64encode b5)), demucs_vocals := some (mkDataUrl m6 (base64encode b6)), mdx_instrumental := some (mkDataUrl m7 (base64encode b7)), mdx_other := some (mkDataUrl m8 (base64encode b8)), mdx_vocals := some (mkDataUrl m9 (base64encode b9)), sonification := some (mkDataUrl m10 (base64encode b10)), visualization := some (mkDataUrl mV (base64encode bV)) } dir "demucs_bass".toList wx =
      .ok () (addLog [.savedFile "demucs_bass.wav".toList (pathJoin dir "demucs_bass.wav".toList)]
        (wx.setFile (pathJoin dir "demucs_bass.wav".toList) (some b1))) :=
    fun wx => audioKeyStep_writes rfl hm1 hb1 hne1 (by decide) (hw _)
  have s2 : ∀ wx : World, audioKeyStep o
      { analyzer_result := some (mkDataUrl mA (base64encode jb)), demucs_bass := some (mkDataUrl m1 (base64encode b1)), demucs_drums := some (mkDataUrl m2 (base64encode b2)), demucs_guitar := some (mkDataUrl m3 (base64encode b3)), demucs_other := some (mkDataUrl m4 (base64encode b4)), demucs_piano := some (mkDataUrl m5 (base64encode b5)), demucs_vocals := some (mkDataUrl m6 (base64encode b6)), mdx_instrumental := some (mkDataUrl m7 (base64encode b7)), mdx_other := some (mkDataUrl m8 (base64encode b8)), mdx_vocals := some (mkDataUrl m9 (base64encode b9)), sonification := some (mkDataUrl m10 (base64encode b10)), visualization := some (mkDataUrl mV (base64encode bV)) } dir "demucs_drums".toList wx =
      .ok () (addLog [.savedFile "demucs_drums.wav".toList (pathJoin dir "demucs_drums.wav".toList)]
        (wx.setFile (pathJoin dir "demucs_drums.wav".toList) (some b2))) :=
    fun wx => audioKeyStep_writes rfl hm2 hb2 hne2 (by decide) (hw _)
  have s3 : ∀ wx : World, audioKeyStep o
      { analyzer_result := some (mkDataUrl mA (base64encode jb)), demucs_bass := some (mkDataUrl m1 (base64encode b1)), demucs_drums := some (mkDataUrl m2 (base64encode b2)), demucs_guitar := some (mkDataUrl m3 (base64encode b3)), demucs_other := some (mkDataUrl m4 (base64encode b4)), demucs_piano := some (mkDataUrl m5 (base64encode b5)), demucs_vocals := some (mkDataUrl m6 (base64encode b6)), mdx_instrumental := some (mkDataUrl m7 (base64encode b7)), mdx_other := some (mkDataUrl m8 (base64encode b8)), mdx_vocals := some (mkDataUrl m9 (base64encode b9)), sonification := some (mkDataUrl m10 (base64encode b10)), visualization := some (mkDataUrl mV (base64encode bV)) } dir "demucs_guitar".toList wx =
      .ok () (addLog [.savedFile "demucs_guitar.wav".toList (pathJoin dir "demucs_guitar.wav".toList)]
        (wx.setFile (pathJoin dir "demucs_guitar.wav".toList) (some b3))) :=
    fun wx => audioKeyStep_writes rfl hm3 hb3 hne3 (by decide) (hw _)
  have s4 : ∀ wx : World, audioKeyStep o
      { analyzer_result := some (mkDataUrl mA (base64encode jb)), demucs_bass := some (mkDataUrl m1 (base64encode b1)), demucs_drums := some (mkDataUrl m2 (base64encode b2)), demucs_guitar := some (mkDataUrl m3 (base64encode b3)), demucs_other := some (mkDataUrl m4 (base64encode b4)), demucs_piano := some (mkDataUrl m5 (base64encode b5)), demucs_vocals := some (mkDataUrl m6 (base64encode b6)), mdx_instrumental := some (mkDataUrl m7 (base64encode b7)), mdx_other := some (mkDataUrl m8 (base64encode b8)), mdx_vocals := some (mkDataUrl m9 (base64encode b9)), sonification := some (mkDataUrl m10 (base64encode b10)), visualization := some (mkDataUrl mV (base64encode bV)) } dir "demucs_other".toList wx =
      .ok () (addLog [.savedFile "demucs_other.wav".toList (pathJoin dir "demucs_other.wav".toList)]
        (wx.setFile (pathJoin dir "demucs_other.wav".toList) (some b4))) :=
    fun wx => audioKeyStep_writes rfl hm4 hb4 hne4 (by decide) (hw _)
  have s5 : ∀ wx : World, audioKeyStep o
      { analyzer_result := some (mkDataUrl mA (base64encode jb)), demucs_bass := some (mkDataUrl m1 (base64encode b1)), demucs_drums := some (mkDataUrl m2 (base64encode b2)), demucs_guitar := some (mkDataUrl m3 (base64encode b3)), demucs_other := some (mkDataUrl m4 (base64encode b4)), demucs_piano := some (mkDataUrl m5 (base64encode b5)), demucs_vocals := some (mkDataUrl m6 (base64encode b6)), mdx_instrumental := some (mkDataUrl m7 (base64encode b7)), mdx_other := some (mkDataUrl m8 (base64encode b8)), mdx_vocals := some (mkDataUrl m9 (base64encode b9)), sonification := some (mkDataUrl m10 (base64encode b10)), visualization := some (mkDataUrl mV (base64encode bV)) } dir "demucs_piano".toList wx =
      .ok () (addLog [.savedFile "demucs_piano.wav".toList (pathJoin dir "demucs_piano.wav".toList)]
        (wx.setFile (pathJoin dir "demucs_piano.wav".toList) (some b5))) :=
    fun wx => audioKeyStep_writes rfl hm5 hb5 hne5 (by decide) (hw _)
  have s6 : ∀ wx : World, audioKeyStep o
      { analyzer_result := some (mkDataUrl mA (base64encode jb)), demucs_bass := some (mkDataUrl m1 (base64encode b1)), demucs_drums := some (mkDataUrl m2 (base64encode b2)), demucs_guitar := some (mkDataUrl m3 (base64encode b3)), demucs_other := some (mkDataUrl m4 (base64encode b4)), demucs_piano := some (mkDataUrl m5 (base64encode b5)), demucs_vocals := some (mkDataUrl m6 (base64encode b6)), mdx_instrumental := some (mkDataUrl m7 (base64encode b7)), mdx_other := some (mkDataUrl m8 (base64encode b8)), mdx_vocals := some (mkDataUrl m9 (base64encode b9)), sonification := some (mkDataUrl m10 (base64encode b10)), visualization := some (mkDataUrl mV (base64encode bV)) } dir "demucs_vocals".toList wx =
      .ok () (addLog [.savedFile "demucs_vocals.wav".toList (pathJoin dir "demucs_vocals.wav".toList)]
        (wx.setFile (pathJoin dir "demucs_vocals.wav".toList) (some b6))) :=
    fun wx => audioKeyStep_writes rfl hm6 hb6 hne6 (by decide) (hw _)
  have s7 : ∀ wx : World, audioKeyStep o
      { analyzer_result := some (mkDataUrl mA (base64encode jb)), demucs_bass := some (mkDataUrl m1 (base64encode b1)), demucs_drums := some (mkDataUrl m2 (base64encode b2)), demucs_guitar := some (mkDataUrl m3 (base64encode b3)), demucs_other := some (mkDataUrl m4 (base64encode b4)), demucs_piano := some (mkDataUrl m5 (base64encode b5)), demucs_vocals := some (mkDataUrl m6 (base64encode b6)), mdx_instrumental := some (mkDataUrl m7 (base64encode b7)), mdx_other := some (mkDataUrl m8 (base64encode b8)), mdx_vocals := some (mkDataUrl m9 (base64encode b9)), sonification := some (mkDataUrl m10 (base64encode b10)), visualization := some (mkDataUrl mV (base64encode bV)) } dir "mdx_instrumental".toList wx =
      .ok () (addLog [.savedFile "mdx_instrumental.wav".toList (pathJoin dir "mdx_instrumental.wav".toList)]
        (wx.setFile (pathJoin dir "mdx_instrumental.wav".toList) (some b7))) :=
    fun wx => audioKeyStep_writes rfl hm7 hb7 hne7 (by decide) (hw _)
  have s8 : ∀ wx : World, audioKeyStep o
      { analyzer_result := some (mkDataUrl mA (base64encode jb)), demucs_bass := some (mkDataUrl m1 (base64encode b1)), demucs_drums := some (mkDataUrl m2 (base64encode b2)), demucs_guitar := some (mkDataUrl m3 (base64encode b3)), demucs_other := some (mkDataUrl m4 (base64encode b4)), demucs_piano := some (mkDataUrl m5 (base64encode b5)), demucs_vocals := some (mkDataUrl m6 (base64encode b6)), mdx_instrumental := some (mkDataUrl m7 (base64encode b7)), mdx_other := some (mkDataUrl m8 (base64encode b8)), mdx_vocals := some (mkDataUrl m9 (base64encode b9)), sonification := some (mkDataUrl m10 (base64encode b10)), visualization := some (mkDataUrl mV (base64encode bV)) } dir "mdx_other".toList wx =
      .ok () (addLog [.savedFile "mdx_other.wav".toList (pathJoin dir "mdx_other.wav".toList)]
        (wx.setFile (pathJoin dir "mdx_other.wav".toList) (some b8))) :=
    fun wx => audioKeyStep_writes rfl hm8 hb8 hne8 (by decide) (hw _)
  have s9 : ∀ wx : World, audioKeyStep o
      { analyzer_result := some (mkDataUrl mA (base64encode jb)), demucs_bass := some (mkDataUrl m1 (base64encode b1)), demucs_drums := some (mkDataUrl m2 (base64encode b2)), demucs_guitar := some (mkDataUrl m3 (base64encode b3)), demucs_other := some (mkDataUrl m4 (base64encode b4)), demucs_piano := some (mkDataUrl m5 (base64encode b5)), demucs_vocals := some (mkDataUrl m6 (base64encode b6)), mdx_instrumental := some (mkDataUrl m7 (base64encode b7)), mdx_other := some (mkDataUrl m8 (base64encode b8)), mdx_vocals := some (mkDataUrl m9 (base64encode b9)), sonification := some (mkDataUrl m10 (base64encode b10)), visualization := some (mkDataUrl mV (base64encode bV)) } dir "mdx_vocals".toList wx =
      .ok () (addLog [.savedFile "mdx_vocals.wav".toList (pathJoin dir "mdx_vocals.wav".toList)]
        (wx.setFile (pathJoin dir "mdx_vocals.wav".toList) (some b9))) :=
    fun wx => audioKeyStep_writes rfl hm9 hb9 hne9 (by decide) (hw _)
  have s10 : ∀ wx : World, audioKeyStep o
      { analyzer_result := some (mkDataUrl mA (base64encode jb)), demucs_bass := some (mkDataUrl m1 (base64encode b1)), demucs_drums := some (mkDataUrl m2 (base64encode b2)), demucs_guitar := some (mkDataUrl m3 (base64encode b3)), demucs_other := some (mkDataUrl m4 (base64encode b4)), demucs_piano := some (mkDataUrl m5 (base64encode b5)), demucs_vocals := some (mkDataUrl m6 (base64encode b6)), mdx_instrumental := some (mkDataUrl m7 (base64encode b7)), mdx_other := some (mkDataUrl m8 (base64encode b8)), mdx_vocals := some (mkDataUrl m9 (base64encode b9)), sonification := some (mkDataUrl m10 (base64encode b10)), visualization := some (mkDataUrl mV (base64encode bV)) } dir "sonification".toList wx =
      .ok () (addLog [.savedFile "sonification.mp3".toList (pathJoin dir "sonification.mp3".toList)]
        (wx.setFile (pathJoin dir "sonification.mp3".toList) (some b10))) :=
    fun wx => audioKeyStep_writes rfl hm10 hb10 hne10 (by decide) (hw _)
  have heq : processAnalysisResults codec o
      { output := some { analyzer_result := some (mkDataUrl mA (base64encode jb)), demucs_bass := some (mkDataUrl m1 (base64encode b1)), demucs_drums := some (mkDataUrl m2 (base64encode b2)), demucs_guitar := some (mkDataUrl m3 (base64encode b3)), demucs_other := some (mkDataUrl m4 (base64encode b4)), demucs_piano := some (mkDataUrl m5 (base64encode b5)), demucs_vocals := some (mkDataUrl m6 (base64encode b6)), mdx_instrumental := some (mkDataUrl m7 (base64encode b7)), mdx_other := some (mkDataUrl m8 (base64encode b8)), mdx_vocals := some (mkDataUrl m9 (base64encode b9)), sonification := some (mkDataUrl m10 (base64encode b10)), visualization := some (mkDataUrl mV (base64encode bV)) } }
      dir initWorld = .ok ()
      (addLog [.finishedAll] (addLog [.savedFile "sonification.mp3".toList (pathJoin dir "sonification.mp3".toList)] ((addLog [.savedFile "mdx_vocals.wav".toList (pathJoin dir "mdx_vocals.wav".toList)] ((addLog [.savedFile "mdx_other.wav".toList (pathJoin dir "mdx_other.wav".toList)] ((addLog [.savedFile "mdx_instrumental.wav".toList (pathJoin dir "mdx_instrumental.wav".toList)] ((addLog [.savedFile "demucs_vocals.wav".toList (pathJoin dir "demucs_vocals.wav".toList)] ((addLog [.savedFile "demucs_piano.wav".toList (pathJoin dir "demucs_piano.wav".toList)] ((addLog [.savedFile "demucs_other.wav".toList (pathJoin dir "demucs_other.wav".toList)] ((addLog [.savedFile "demucs_guitar.wav".toList (pathJoin dir "demucs_guitar.wav".toList)] ((addLog [.savedFile "demucs_drums.wav".toList (pathJoin dir "demucs_drums.wav".toList)] ((addLog [.savedFile "demucs_bass.wav".toList (pathJoin dir "demucs_bass.wav".toList)] ((addLog [.audioHeader] (addLog [.savedFile "visualization.png".toList (pathJoin dir "visualization.png".toList)] ((addLog [.savedAnalysisJson (pathJoin dir "analysis.json".toList)] ((addLog [.ensuredDir dir] (initWorld.setDir dir)).setFile (pathJoin dir "analysis.json".toList) (some (codec.stringifyPretty j)))).setFile (pathJoin dir "visualization.png".toList) (some bV)))).setFile (pathJoin dir "demucs_bass.wav".toList) (some b1))).setFile (pathJoin dir "demucs_drums.wav".toList) (some b2))).setFile (pathJoin dir "demucs_guitar.wav".toList) (some b3))).setFile (pathJoin dir "demucs_other.wav".toList) (some b4))).setFile (pathJoin dir "demucs_piano.wav".toList) (some b5))).setFile (pathJoin dir "demucs_vocals.wav".toList) (some b6))).setFile (pathJoin dir "mdx_instrumental.wav".toList) (some b7))).setFile (pathJoin dir "mdx_other.wav".toList) (some b8))).setFile (pathJoin dir "mdx_vocals.wav".toList) (some b9))).setFile (pathJoin dir "sonification.mp3".toList) (some b10)))) := by
    simp only [processAnalysisResults, fsMkdir, hmk, Bool.false_eq_true, if_false,
      sA, sV, audioFileKeys, audioLoop, s1, s2, s3, s4, s5, s6, s7, s8, s9, s10]
  have neq_0_1 : pathJoin dir "analysis.json".toList ≠ pathJoin dir "visualization.png".toList :=
    fun h => absurd (pathJoin_inj.mp h) (by decide)
  have neq_0_2 : pathJoin dir "analysis.json".toList ≠ pathJoin dir "demucs_bass.wav".toList :=
    fun h => absurd (pathJoin_inj.mp h) (by decide)
  have neq_0_3 : pathJoin dir "analysis.json".toList ≠ pathJoin dir "demucs_drums.wav".toList :=
    fun h => absurd (pathJoin_inj.mp h) (by decide)
  have neq_0_4 : pathJoin dir "analysis.json".toList ≠ pathJoin dir "demucs_guitar.wav".toList :=
    fun h => absurd (pathJoin_inj.mp h) (by decide)
  have neq_0_5 : pathJoin dir "analysis.json".toList ≠ pathJoin dir "demucs_other.wav".toList :=
    fun h => absurd (pathJoin_inj.mp h) (by decide)
  have neq_0_6 : pathJoin dir "analysis.json".toList ≠ pathJoin dir "demucs_piano.wav".toList :=
    fun h => absurd (pathJoin_inj.mp h) (by decide)
  have neq_0_7 : pathJoin dir "analysis.json".toList ≠ pathJoin dir "demucs_vocals.wav".toList :=
    fun h => absurd (pathJoin_inj.mp h) (by decide)
  have neq_0_8 : pathJoin dir "analysis.json".toList ≠ pathJoin dir "mdx_instrumental.wav".toList :=
    fun h => absurd (pathJoin_inj.mp h) (by decide)
  have neq_0_9 : pathJoin dir "analysis.json".toList ≠ pathJoin dir "mdx_other.wav".toList :=
    fun h => absurd (pathJoin_inj.mp h) (by decide)
  have neq_0_10 : pathJoin dir "analysis.json".toList ≠ pathJoin dir "mdx_vocals.wav".toList :=
    fun h => absurd (pathJoin_inj.mp h) (by decide)
  have neq_0_11 : pathJoin dir "analysis.json".toList ≠ pathJoin dir "sonification.mp3".toList :=
    fun h => absurd (pathJoin_inj.mp h) (by decide)
  have neq_1_2 : pathJoin dir "visualization.png".toList ≠ pathJoin dir "demucs_bass.wav".toList :=
    fun h => absurd (pathJoin_inj.mp h) (by decide)
  have neq_1_3 : pathJoin dir "visualization.png".toList ≠ pathJoin dir "demucs_drums.wav".toList :=
    fun h => absurd (pathJoin_inj.mp h) (by decide)
  have neq_1_4 : pathJoin dir "visualization.png".toList ≠ pathJoin dir "demucs_guitar.wav".toList :=
    fun h => absurd (pathJoin_inj.mp h) (by decide)
  have neq_1_5 : pathJoin dir "visualization.png".toList ≠ pathJoin dir "demucs_other.wav".toList :=
    fun h => absurd (pathJoin_inj.mp h) (by decide)
  have neq_1_6 : pathJoin dir "visualization.png".toList ≠ pathJoin dir "demucs_piano.wav".toList :=
    fun h => absurd (pathJoin_inj.mp h) (by decide)
  have neq_1_7 : pathJoin dir "visualization.png".toList ≠ pathJoin dir "demucs_vocals.wav".toList :=
    fun h => absurd (pathJoin_inj.mp h) (by decide)
  have neq_1_8 : pathJoin dir "visualization.png".toList ≠ pathJoin dir "mdx_instrumental.wav".toList :=
    fun h => absurd (pathJoin_inj.mp h) (by decide)
  have neq_1_9 : pathJoin dir "visualization.png".toList ≠ pathJoin dir "mdx_other.wav".toList :=
    fun h => absurd (pathJoin_inj.mp h) (by decide)
  have neq_1_10 : pathJoin dir "visualization.png".toList ≠ pathJoin dir "mdx_vocals.wav".toList :=
    fun h => absurd (pathJoin_inj.mp h) (by decide)
  have neq_1_11 : pathJoin dir "visualization.png".toList ≠ pathJoin dir "sonification.mp3".toList :=
    fun h => absurd (pathJoin_inj.mp h) (by decide)
  have neq_2_3 : pathJoin dir "demucs_bass.wav".toList ≠ pathJoin dir "demucs_drums.wav".toList :=
    fun h => absurd (pathJoin_inj.mp h) (by decide)
  have neq_2_4 : pathJoin dir "demucs_bass.wav".toList ≠ pathJoin dir "demucs_guitar.wav".toList :=
    fun h => absurd (pathJoin_inj.mp h) (by decide)
  have neq_2_5 : pathJoin dir "demucs_bass.wav".toList ≠ pathJoin dir "demucs_other.wav".toList :=
    fun h => absurd (pathJoin_inj.mp h) (by decide)
  have neq_2_6 : pathJoin dir "demucs_bass.wav".toList ≠ pathJoin dir "demucs_piano.wav".toList :=
    fun h => absurd (pathJoin_inj.mp h) (by decide)
  have neq_2_7 : pathJoin dir "demucs_bass.wav".toList ≠ pathJoin dir "demucs_vocals.wav".toList :=
    fun h => absurd (pathJoin_inj.mp h) (by decide)
  have neq_2_8 : pathJoin dir "demucs_bass.wav".toList ≠ pathJoin dir "mdx_instrumental.wav".toList :=
    fun h => absurd (pathJoin_inj.mp h) (by decide)
  have neq_2_9 : pathJoin dir "demucs_bass.wav".toList ≠ pathJoin dir "mdx_other.wav".toList :=
    fun h => absurd (pathJoin_inj.mp h) (by decide)
  have neq_2_10 : pathJoin dir "demucs_bass.wav".toList ≠ pathJoin dir "mdx_vocals.wav".toList :=
    fun h => absurd (pathJoin_inj.mp h) (by decide)
  have neq_2_11 : pathJoin dir "demucs_bass.wav".toList ≠ pathJoin dir "sonification.mp3".toList :=
    fun h => absurd (pathJoin_inj.mp h) (by decide)
  have neq_3_4 : pathJoin dir "demucs_drums.wav".toList ≠ pathJoin dir "demucs_guitar.wav".toList :=
    fun h => absurd (pathJoin_inj.mp h) (by decide)
  have neq_3_5 : pathJoin dir "demucs_drums.wav".toList ≠ pathJoin dir "demucs_other.wav".toList :=
    fun h => absurd (pathJoin_inj.mp h) (by decide)
  have neq_3_6 : pathJoin dir "demucs_drums.wav".toList ≠ pathJoin dir "demucs_piano.wav".toList :=
    fun h => absurd (pathJoin_inj.mp h) (by decide)
  have neq_3_7 : pathJoin dir "demucs_drums.wav".toList ≠ pathJoin dir "demucs_vocals.wav".toList :=
    fun h => absurd (pathJoin_inj.mp h) (by decide)
  have neq_3_8 : pathJoin dir "demucs_drums.wav".toList ≠ pathJoin dir "mdx_instrumental.wav".toList :=
    fun h => absurd (pathJoin_inj.mp h) (by decide)
  have neq_3_9 : pathJoin dir "demucs_drums.wav".toList ≠ pathJoin dir "mdx_other.wav".toList :=
    fun h => absurd (pathJoin_inj.mp h) (by decide)
  have neq_3_10 : pathJoin dir "demucs_drums.wav".toList ≠ pathJoin dir "mdx_vocals.wav".toList :=
    fun h => absurd (pathJoin_inj.mp h) (by decide)
  have neq_3_11 : pathJoin dir "demucs_drums.wav".toList ≠ pathJoin dir "sonification.mp3".toList :=
    fun h => absurd (pathJoin_inj.mp h) (by decide)
  have neq_4_5 : pathJoin dir "demucs_guitar.wav".toList ≠ pathJoin dir "demucs_other.wav".toList :=
    fun h => absurd (pathJoin_inj.mp h) (by decide)
  have neq_4_6 : pathJoin dir "demucs_guitar.wav".toList ≠ pathJoin dir "demucs_piano.wav".toList :=
    fun h => absurd (pathJoin_inj.mp h) (by decide)
  have neq_4_7 : pathJoin dir "demucs_guitar.wav".toList ≠ pathJoin dir "demucs_vocals.wav".toList :=
    fun h => absurd (pathJoin_inj.mp h) (by decide)
  have neq_4_8 : pathJoin dir "demucs_guitar.wav".toList ≠ pathJoin dir "mdx_instrumental.wav".toList :=
    fun h => absurd (pathJoin_inj.mp h) (by decide)
  have neq_4_9 : pathJoin dir "demucs_guitar.wav".toList ≠ pathJoin dir "mdx_other.wav".toList :=
    fun h => absurd (pathJoin_inj.mp h) (by decide)
  have neq_4_10 : pathJoin dir "demucs_guitar.wav".toList ≠ pathJoin dir "mdx_vocals.wav".toList :=
    fun h => absurd (pathJoin_inj.mp h) (by decide)
  have neq_4_11 : pathJoin dir "demucs_guitar.wav".toList ≠ pathJoin dir "sonification.mp3".toList :=
    fun h => absurd (pathJoin_inj.mp h) (by decide)
  have neq_5_6 : pathJoin dir "demucs_other.wav".toList ≠ pathJoin dir "demucs_piano.wav".toList :=
    fun h => absurd (pathJoin_inj.mp h) (by decide)
  have neq_5_7 : pathJoin dir "demucs_other.wav".toList ≠ pathJoin dir "demucs_vocals.wav".toList :=
    fun h => absurd (pathJoin_inj.mp h) (by decide)
  have neq_5_8 : pathJoin dir "demucs_other.wav".toList ≠ pathJoin dir "mdx_instrumental.wav".toList :=
    fun h => absurd (pathJoin_inj.mp h) (by decide)
  have neq_5_9 : pathJoin dir "demucs_other.wav".toList ≠ pathJoin dir "mdx_other.wav".toList :=
    fun h => absurd (pathJoin_inj.mp h) (by decide)
  have neq_5_10 : pathJoin dir "demucs_other.wav".toList ≠ pathJoin dir "mdx_vocals.wav".toList :=
    fun h => absurd (pathJoin_inj.mp h) (by decide)
  have neq_5_11 : pathJoin dir "demucs_other.wav".toList ≠ pathJoin dir "sonification.mp3".toList :=
    fun h => absurd (pathJoin_inj.mp h) (by decide)
  have neq_6_7 : pathJoin dir "demucs_piano.wav".toList ≠ pathJoin dir "demucs_vocals.wav".toList :=
    fun h => absurd (pathJoin_inj.mp h) (by decide)
  have neq_6_8 : pathJoin dir "demucs_piano.wav".toList ≠ pathJoin dir "mdx_instrumental.wav".toList :=
    fun h => absurd (pathJoin_inj.mp h) (by decide)
  have neq_6_9 : pathJoin dir "demucs_piano.wav".toList ≠ pathJoin dir "mdx_other.wav".toList :=
    fun h => absurd (pathJoin_inj.mp h) (by decide)
  have neq_6_10 : pathJoin dir "demucs_piano.wav".toList ≠ pathJoin dir "mdx_vocals.wav".toList :=
    fun h => absurd (pathJoin_inj.mp h) (by decide)
  have neq_6_11 : pathJoin dir "demucs_piano.wav".toList ≠ pathJoin dir "sonification.mp3".toList :=
    fun h => absurd (pathJoin_inj.mp h) (by decide)
  have neq_7_8 : pathJoin dir "demucs_vocals.wav".toList ≠ pathJoin dir "mdx_instrumental.wav".toList :=
    fun h => absurd (pathJoin_inj.mp h) (by decide)
  have neq_7_9 : pathJoin dir "demucs_vocals.wav".toList ≠ pathJoin dir "mdx_other.wav".toList :=
    fun h => absurd (pathJoin_inj.mp h) (by decide)
  have neq_7_10 : pathJoin dir "demucs_vocals.wav".toList ≠ pathJoin dir "mdx_vocals.wav".toList :=
    fun h => absurd (pathJoin_inj.mp h) (by decide)
  have neq_7_11 : pathJoin dir "demucs_vocals.wav".toList ≠ pathJoin dir "sonification.mp3".toList :=
    fun h => absurd (pathJoin_inj.mp h) (by decide)
  have neq_8_9 : pathJoin dir "mdx_instrumental.wav".toList ≠ pathJoin dir "mdx_other.wav".toList :=
    fun h => absurd (pathJoin_inj.mp h) (by decide)
  have neq_8_10 : pathJoin dir "mdx_instrumental.wav".toList ≠ pathJoin dir "mdx_vocals.wav".toList :=
    fun h => absurd (pathJoin_inj.mp h) (by decide)
  have neq_8_11 : pathJoin dir "mdx_instrumental.wav".toList ≠ pathJoin dir "sonification.mp3".toList :=
    fun h => absurd (pathJoin_inj.mp h) (by decide)
  have neq_9_10 : pathJoin dir "mdx_other.wav".toList ≠ pathJoin dir "mdx_vocals.wav".toList :=
    fun h => absurd (pathJoin_inj.mp h) (by decide)
  have neq_9_11 : pathJoin dir "mdx_other.wav".toList ≠ pathJoin dir "sonification.mp3".toList :=
    fun h => absurd (pathJoin_inj.mp h) (by decide)
  have neq_10_11 : pathJoin dir "mdx_vocals.wav".toList ≠ pathJoin dir "sonification.mp3".toList :=
    fun h => absurd (pathJoin_inj.mp h) (by decide)
  refine ⟨_, heq, ?_, ?_, ?_, ?_, ?_, ?_, ?_, ?_, ?_, ?_, ?_, ?_, ?_, ?_, ?_⟩
  · simp only [addLog_dirs, setFile_dirs, setDir_dirs_same]
  · simp only [addLog_files, setFile_files_other _ _ neq_0_11, setFile_files_other _ _ neq_0_10, setFile_files_other _ _ neq_0_9, setFile_files_other _ _ neq_0_8, setFile_files_other _ _ neq_0_7, setFile_files_other _ _ neq_0_6, setFile_files_other _ _ neq_0_5, setFile_files_other _ _ neq_0_4, setFile_files_other _ _ neq_0_3, setFile_files_other _ _ neq_0_2, setFile_files_other _ _ neq_0_1, setFile_files_same]
  · simp only [addLog_files, setFile_files_other _ _ neq_0_11, setFile_files_other _ _ neq_0_10, setFile_files_other _ _ neq_0_9, setFile_files_other _ _ neq_0_8, setFile_files_other _ _ neq_0_7, setFile_files_other _ _ neq_0_6, setFile_files_other _ _ neq_0_5, setFile_files_other _ _ neq_0_4, setFile_files_other _ _ neq_0_3, setFile_files_other _ _ neq_0_2, setFile_files_other _ _ neq_0_1, setFile_files_same, Option.getD_some]
    exact hrt
  · simp only [addLog_files, setFile_files_other _ _ neq_1_11, setFile_files_other _ _ neq_1_10, setFile_files_other _ _ neq_1_9, setFile_files_other _ _ neq_1_8, setFile_files_other _ _ neq_1_7, setFile_files_other _ _ neq_1_6, setFile_files_other _ _ neq_1_5, setFile_files_other _ _ neq_1_4, setFile_files_other _ _ neq_1_3, setFile_files_other _ _ neq_1_2, setFile_files_same]
  · simp only [addLog_files, setFile_files_other _ _ neq_2_11, setFile_files_other _ _ neq_2_10, setFile_files_other _ _ neq_2_9, setFile_files_other _ _ neq_2_8, setFile_files_other _ _ neq_2_7, setFile_files_other _ _ neq_2_6, setFile_files_other _ _ neq_2_5, setFile_files_other _ _ neq_2_4, setFile_files_other _ _ neq_2_3, setFile_files_same]
  · simp only [addLog_files, setFile_files_other _ _ neq_3_11, setFile_files_other _ _ neq_3_10, setFile_files_other _ _ neq_3_9, setFile_files_other _ _ neq_3_8, setFile_files_other _ _ neq_3_7, setFile_files_other _ _ neq_3_6, setFile_files_other _ _ neq_3_5, setFile_files_other _ _ neq_3_4, setFile_files_same]
  · simp only [addLog_files, setFile_files_other _ _ neq_4_11, setFile_files_other _ _ neq_4_10, setFile_files_other _ _ neq_4_9, setFile_files_other _ _ neq_4_8, setFile_files_other _ _ neq_4_7, setFile_files_other _ _ neq_4_6, setFile_files_other _ _ neq_4_5, setFile_files_same]
  · simp only [addLog_files, setFile_files_other _ _ neq_5_11, setFile_files_other _ _ neq_5_10, setFile_files_other _ _ neq_5_9, setFile_files_other _ _ neq_5_8, setFile_files_other _ _ neq_5_7, setFile_files_other _ _ neq_5_6, setFile_files_same]
  · simp only [addLog_files, setFile_files_other _ _ neq_6_11, setFile_files_other _ _ neq_6_10, setFile_files_other _ _ neq_6_9, setFile_files_other _ _ neq_6_8, setFile_files_other _ _ neq_6_7, setFile_files_same]
  · simp only [addLog_files, setFile_files_other _ _ neq_7_11, setFile_files_other _ _ neq_7_10, setFile_files_other _ _ neq_7_9, setFile_files_other _ _ neq_7_8, setFile_files_same]
  · simp only [addLog_files, setFile_files_other _ _ neq_8_11, setFile_files_other _ _ neq_8_10, setFile_files_other _ _ neq_8_9, setFile_files_same]
  · simp only [addLog_files, setFile_files_other _ _ neq_9_11, setFile_files_other _ _ neq_9_10, setFile_files_same]
  · simp only [addLog_files, setFile_files_other _ _ neq_10_11, setFile_files_same]
  · simp only [addLog_files, setFile_files_same]
  · intro q h0 h1 h2 h3 h4 h5 h6 h7 h8 h9 h10 h11
    simp only [addLog_files, setFile_files_other _ _ h11, setFile_files_other _ _ h10, setFile_files_other _ _ h9, setFile_files_other _ _ h8, setFile_files_other _ _ h7, setFile_files_other _ _ h6, setFile_files_other _ _ h5, setFile_files_other _ _ h4, setFile_files_other _ _ h3, setFile_files_other _ _ h2, setFile_files_other _ _ h1, setFile_files_other _ _ h0, setDir_files]
    rfl

/-- Witness for amended C2: the trivial codec, the JSON text `null`, and
`Man` bytes in every binary field. -/
theorem claim_C2_all_fields_write_twelve_files_witness :
    ((∀ p, oracleOk.writeFails p = false) ∧
      unitCodec.parse nullJsonBytes = some () ∧
      unitCodec.parse (unitCodec.stringifyPretty ()) = some ()) ∧
      ∃ w', processAnalysisResults unitCodec oracleOk
          { output := some { analyzer_result := some (mkDataUrl "application/json".toList (base64encode nullJsonBytes)), demucs_bass := some (mkDataUrl "audio/wav".toList (base64encode [77, 97, 110])), demucs_drums := some (mkDataUrl "audio/wav".toList (base64encode [77, 97, 110])), demucs_guitar := some (mkDataUrl "audio/wav".toList (base64encode [77, 97, 110])), demucs_other := some (mkDataUrl "audio/wav".toList (base64encode [77, 97, 110])), demucs_piano := some (mkDataUrl "audio/wav".toList (base64encode [77, 97, 110])), demucs_vocals := some (mkDataUrl "audio/wav".toList (base64encode [77, 97, 110])), mdx_instrumental := some (mkDataUrl "audio/wav".toList (base64encode [77, 97, 110])), mdx_other := some (mkDataUrl "audio/wav".toList (base64encode [77, 97, 110])), mdx_vocals := some (mkDataUrl "audio/wav".toList (base64encode [77, 97, 110])), sonification := some (mkDataUrl "audio/wav".toList (base64encode [77, 97, 110])), visualization := some (mkDataUrl "image/png".toList (base64encode [77, 97, 110])) } }
          OUTPUT_DIRECTORY initWorld = .ok () w' ∧
        w'.dirs OUTPUT_DIRECTORY = true ∧
        w'.files (pathJoin OUTPUT_DIRECTORY "analysis.json".toList) = some (unitCodec.stringifyPretty ()) ∧
        unitCodec.parse ((w'.files (pathJoin OUTPUT_DIRECTORY "analysis.json".toList)).getD []) = some () ∧
        w'.files (pathJoin OUTPUT_DIRECTORY "visualization.png".toList) = some [77, 97, 110] ∧
        w'.files (pathJoin OUTPUT_DIRECTORY "demucs_bass.wav".toList) = some [77, 97, 110] ∧
        w'.files (pathJoin OUTPUT_DIRECTORY "demucs_drums.wav".toList) = some [77, 97, 110] ∧
        w'.files (pathJoin OUTPUT_DIRECTORY "demucs_guitar.wav".toList) = some [77, 97, 110] ∧
        w'.files (pathJoin OUTPUT_DIRECTORY "demucs_other.wav".toList) = some [77, 97, 110] ∧
        w'.files (pathJoin OUTPUT_DIRECTORY "demucs_piano.wav".toList) = some [77, 97, 110] ∧
        w'.files (pathJoin OUTPUT_DIRECTORY "demucs_vocals.wav".toList) = some [77, 97, 110] ∧
        w'.files (pathJoin OUTPUT_DIRECTORY "mdx_instrumental.wav".toList) = some [77, 97, 110] ∧
        w'.files (pathJoin OUTPUT_DIRECTORY "mdx_other.wav".toList) = some [77, 97, 110] ∧
        w'.files (pathJoin OUTPUT_DIRECTORY "mdx_vocals.wav".toList) = some [77, 97, 110] ∧
        w'.files (pathJoin OUTPUT_DIRECTORY "sonification.mp3".toList) = some [77, 97, 110] ∧
        (∀ q, q ≠ pathJoin OUTPUT_DIRECTORY "analysis.json".toList → q ≠ pathJoin OUTPUT_DIRECTORY "visualization.png".toList → q ≠ pathJoin OUTPUT_DIRECTORY "demucs_bass.wav".toList → q ≠ pathJoin OUTPUT_DIRECTORY "demucs_drums.wav".toList → q ≠ pathJoin OUTPUT_DIRECTORY "demucs_guitar.wav".toList → q ≠ pathJoin OUTPUT_DIRECTORY "demucs_other.wav".toList → q ≠ pathJoin OUTPUT_DIRECTORY "demucs_piano.wav".toList → q ≠ pathJoin OUTPUT_DIRECTORY "demucs_vocals.wav".toList → q ≠ pathJoin OUTPUT_DIRECTORY "mdx_instrumental.wav".toList → q ≠ pathJoin OUTPUT_DIRECTORY "mdx_other.wav".toList → q ≠ pathJoin OUTPUT_DIRECTORY "mdx_vocals.wav".toList → q ≠ pathJoin OUTPUT_DIRECTORY "sonification.mp3".toList →
          w'.files q = none) :=
  ⟨⟨fun _ => rfl, by decide, by decide⟩,
    claim_C2_all_fields_write_twelve_files unitCodec oracleOk OUTPUT_DIRECTORY
      "application/json".toList "image/png".toList
      "audio/wav".toList "audio/wav".toList "audio/wav".toList "audio/wav".toList "audio/wav".toList "audio/wav".toList "audio/wav".toList "audio/wav".toList "audio/wav".toList "audio/wav".toList
      nullJsonBytes ()
      [77,97,110] [77,97,110] [77,97,110] [77,97,110] [77,97,110] [77,97,110] [77,97,110] [77,97,110] [77,97,110] [77,97,110] [77,97,110]
      (by decide) (by decide)
      (by decide) (by decide) (by decide) (by decide) (by decide) (by decide) (by decide) (by decide) (by decide) (by decide)
      (by decide) (by decide) (by decide) (by decide)
      (by decide) (by decide)
      (by decide) (by decide)
      (by decide) (by decide)
      (by decide) (by decide)
      (by decide) (by decide)
      (by decide) (by decide)
      (by decide) (by decide)
      (by decide) (by decide)
      (by decide) (by decide)
      (by decide) (by decide)
      (by decide) (by decide)
      (fun _ => rfl) rfl⟩

/-- **C2, counterexample.** The claim says "exactly the 11 expected files"
while enumerating twelve file names (analysis.json, visualization.png, six
demucs stems, three mdx stems, sonification.mp3 — and likewise "eleven
catalogued fields" for twelve fields).  On a fully valid bundle the code
writes all twelve pairwise-distinct files, so it does not write exactly 11
files. -/
theorem claim_C2_counterexample :
    (expectedFileNames.length = 12 ∧ expectedFileNames.Nodup) ∧
      expectedFileNames.all (fun n =>
        ((processAnalysisResults unitCodec oracleOk respAllValid OUTPUT_DIRECTORY
          initWorld).world.files (pathJoin OUTPUT_DIRECTORY n)).isSome) = true := by
  decide

/-- **C4, amended.** For every bundle whose `analyzer_result` is a data URL
whose payload, after the lenient base64 decode, does not parse as JSON (the
operative effect of "invalid base64", since the decode itself never rejects),
while the other fields hold valid data URLs: `persist` still writes all the
other valid artifacts, writes the diagnostic file
`_error_analyzer_result_content.txt`, and does not write `analysis.json`. -/
theorem claim_C4_unparseable_analyzer_writes_diagnostic {J : Type}
    (codec : JsonCodec J) (o : FsOracle) (dir : Path)
    (mA mV m1 m2 m3 m4 m5 m6 m7 m8 m9 m10 : Str)
    (pay : Str)
    (bV b1 b2 b3 b4 b5 b6 b7 b8 b9 b10 : Bytes)
    (hmA : ',' ∉ mA) (hmV : ',' ∉ mV)
    (hm1 : ',' ∉ m1)
    (hm2 : ',' ∉ m2)
    (hm3 : ',' ∉ m3)
    (hm4 : ',' ∉ m4)
    (hm5 : ',' ∉ m5)
    (hm6 : ',' ∉ m6)
    (hm7 : ',' ∉ m7)
    (hm8 : ',' ∉ m8)
    (hm9 : ',' ∉ m9)
    (hm10 : ',' ∉ m10)
    (hpayne : pay ≠ [])
    (hparse : codec.parse (base64decode pay) = none)
    (hbV : ∀ x ∈ bV, x < 256) (hneV : bV ≠ [])
    (hb1 : ∀ x ∈ b1, x < 256) (hne1 : b1 ≠ [])
    (hb2 : ∀ x ∈ b2, x < 256) (hne2 : b2 ≠ [])
    (hb3 : ∀ x ∈ b3, x < 256) (hne3 : b3 ≠ [])
    (hb4 : ∀ x ∈ b4, x < 256) (hne4 : b4 ≠ [])
    (hb5 : ∀ x ∈ b5, x < 256) (hne5 : b5 ≠ [])
    (hb6 : ∀ x ∈ b6, x < 256) (hne6 : b6 ≠ [])
    (hb7 : ∀ x ∈ b7, x < 256) (hne7 : b7 ≠ [])
    (hb8 : ∀ x ∈ b8, x < 256) (hne8 : b8 ≠ [])
    (hb9 : ∀ x ∈ b9, x < 256) (hne9 : b9 ≠ [])
    (hb10 : ∀ x ∈ b10, x < 256) (hne10 : b10 ≠ [])
    (hw : ∀ p, o.writeFails p = false) (hmk : o.mkdirFails dir = false) :
    ∃ w', processAnalysisResults codec o
        { output := some { analyzer_result := some (mkDataUrl mA pay), demucs_bass := some (mkDataUrl m1 (base64encode b1)), demucs_drums := some (mkDataUrl m2 (base64encode b2)), demucs_guitar := some (mkDataUrl m3 (base64encode b3)), demucs_other := some (mkDataUrl m4 (base64encode b4)), demucs_piano := some (mkDataUrl m5 (base64encode b5)), demucs_vocals := some (mkDataUrl m6 (base64encode b6)), mdx_instrumental := some (mkDataUrl m7 (base64encode b7)), mdx_other := some (mkDataUrl m8 (base64encode b8)), mdx_vocals := some (mkDataUrl m9 (base64encode b9)), sonification := some (mkDataUrl m10 (base64encode b10)), visualization := some (mkDataUrl mV (base64encode bV)) } }
        dir initWorld = .ok () w' ∧
      w'.files (pathJoin dir errorFileName) =
        some (errHeaderDecoded ++ base64decode pay) ∧
      w'.files (pathJoin dir "analysis.json".toList) = none ∧
      w'.files (pathJoin dir "visualization.png".toList) = some bV ∧
      w'.files (pathJoin dir "demucs_bass.wav".toList) = some b1 ∧
      w'.files (pathJoin dir "demucs_drums.wav".toList) = some b2 ∧
      w'.files (pathJoin dir "demucs_guitar.wav".toList) = some b3 ∧
      w'.files (pathJoin dir "demucs_other.wav".toList) = some b4 ∧
      w'.files (pathJoin dir "demucs_piano.wav".toList) = some b5 ∧
      w'.files (pathJoin dir "demucs_vocals.wav".toList) = some b6 ∧
      w'.files (pathJoin dir "mdx_instrumental.wav".toList) = some b7 ∧
      w'.files (pathJoin dir "mdx_other.wav".toList) = some b8 ∧
      w'.files (pathJoin dir "mdx_vocals.wav".toList) = some b9 ∧
      w'.files (pathJoin dir "sonification.mp3".toList) = some b10 ∧
      (∀ q, q ≠ pathJoin dir errorFileName → q ≠ pathJoin dir "visualization.png".toList → q ≠ pathJoin dir "demucs_bass.wav".toList → q ≠ pathJoin dir "demucs_drums.wav".toList → q ≠ pathJoin dir "demucs_guitar.wav".toList → q ≠ pathJoin dir "demucs_other.wav".toList → q ≠ pathJoin dir "demucs_piano.wav".toList → q ≠ pathJoin dir "demucs_vocals.wav".toList → q ≠ pathJoin dir "mdx_instrumental.wav".toList → q ≠ pathJoin dir "mdx_other.wav".toList → q ≠ pathJoin dir "mdx_vocals.wav".toList → q ≠ pathJoin dir "sonification.mp3".toList →
        w'.files q = none) := by
  have sE : ∀ wx : World, analyzerResultStep codec o
      { analyzer_result := some (mkDataUrl mA pay), demucs_bass := some (mkDataUrl m1 (base64encode b1)), demucs_drums := some (mkDataUrl m2 (base64encode b2)), demucs_guitar := some (mkDataUrl m3 (base64encode b3)), demucs_other := some (mkDataUrl m4 (base64encode b4)), demucs_piano := some (mkDataUrl m5 (base64encode b5)), demucs_vocals := some (mkDataUrl m6 (base64encode b6)), mdx_instrumental := some (mkDataUrl m7 (base64encode b7)), mdx_other := some (mkDataUrl m8 (base64encode b8)), mdx_vocals := some (mkDataUrl m9 (base64encode b9)), sonification := some (mkDataUrl m10 (base64encode b10)), visualization := some (mkDataUrl mV (base64encode bV)) } dir wx =
      .ok () (addLog [.savedErrorFile (pathJoin dir errorFileName)]
        ((addLog [.analyzerProcessError, .problematicJson (pay.take 50)] wx).setFile
          (pathJoin dir errorFileName) (some (errHeaderDecoded ++ base64decode pay)))) := by
    intro wx
    rw [analyzerResultStep_error_file rfl (strip_mkDataUrl hmA pay)
      (isEmpty_false_of_ne hpayne) hparse (hw _), addLog_nil]
  have sV : ∀ wx : World, visualizationStep o
      { analyzer_result := some (mkDataUrl mA pay), demucs_bass := some (mkDataUrl m1 (base64encode b1)), demucs_drums := some (mkDataUrl m2 (base64encode b2)), demucs_guitar := some (mkDataUrl m3 (base64encode b3)), demucs_other := some (mkDataUrl m4 (base64encode b4)), demucs_piano := some (mkDataUrl m5 (base64encode b5)), demucs_vocals := some (mkDataUrl m6 (base64encode b6)), mdx_instrumental := some (mkDataUrl m7 (base64encode b7)), mdx_other := some (mkDataUrl m8 (base64encode b8)), mdx_vocals := some (mkDataUrl m9 (base64encode b9)), sonification := some (mkDataUrl m10 (base64encode b10)), visualization := some (mkDataUrl mV (base64encode bV)) } dir wx =
      .ok () (addLog [.savedFile "visualization.png".toList (pathJoin dir "visualization.png".toList)]
        (wx.setFile (pathJoin dir "visualization.png".toList) (some bV))) :=
    fun wx => visualizationStep_writes rfl hmV hbV hneV (hw _)
  have s1 : ∀ wx : World, audioKeyStep o
      { analyzer_result := some (mkDataUrl mA pay), demucs_bass := some (mkDataUrl m1 (base64encode b1)), demucs_drums := some (mkDataUrl m2 (base64encode b2)), demucs_guitar := some (mkDataUrl m3 (base64encode b3)), demucs_other := some (mkDataUrl m4 (base64encode b4)), demucs_piano := some (mkDataUrl m5 (base64encode b5)), demucs_vocals := some (mkDataUrl m6 (base64encode b6)), mdx_instrumental := some (mkDataUrl m7 (base64encode b7)), mdx_other := some (mkDataUrl m8 (base64encode b8)), mdx_vocals := some (mkDataUrl m9 (base64encode b9)), sonification := some (mkDataUrl m10 (base64encode b10)), visualization := some (mkDataUrl mV (base64encode bV)) } dir "demucs_bass".toList wx =
      .ok () (addLog [.savedFile "demucs_bass.wav".toList (pathJoin dir "demucs_bass.wav".toList)]
        (wx.setFile (pathJoin dir "demucs_bass.wav".toList) (some b1))) :=
    fun wx => audioKeyStep_writes rfl hm1 hb1 hne1 (by decide) (hw _)
  have s2 : ∀ wx : World, audioKeyStep o
      { analyzer_result := some (mkDataUrl mA pay), demucs_bass := some (mkDataUrl m1 (base64encode b1)), demucs_drums := some (mkDataUrl m2 (base64encode b2)), demucs_guitar := some (mkDataUrl m3 (base64encode b3)), demucs_other := some (mkDataUrl m4 (base64encode b4)), demucs_piano := some (mkDataUrl m5 (base64encode b5)), demucs_vocals := some (mkDataUrl m6 (base64encode b6)), mdx_instrumental := some (mkDataUrl m7 (base64encode b7)), mdx_other := some (mkDataUrl m8 (base64encode b8)), mdx_vocals := some (mkDataUrl m9 (base64encode b9)), sonification := some (mkDataUrl m10 (base64encode b10)), visualization := some (mkDataUrl mV (base64encode bV)) } dir "demucs_drums".toList wx =
      .ok () (addLog [.savedFile "demucs_drums.wav".toList (pathJoin dir "demucs_drums.wav".toList)]
        (wx.setFile (pathJoin dir "demucs_drums.wav".toList) (some b2))) :=
    fun wx => audioKeyStep_writes rfl hm2 hb2 hne2 (by decide) (hw _)
  have s3 : ∀ wx : World, audioKeyStep o
      { analyzer_result := some (mkDataUrl mA pay), demucs_bass := some (mkDataUrl m1 (base64encode b1)), demucs_drums := some (mkDataUrl m2 (base64encode b2)), demucs_guitar := some (mkDataUrl m3 (base64encode b3)), demucs_other := some (mkDataUrl m4 (base64encode b4)), demucs_piano := some (mkDataUrl m5 (base64encode b5)), demucs_vocals := some (mkDataUrl m6 (base64encode b6)), mdx_instrumental := some (mkDataUrl m7 (base64encode b7)), mdx_other := some (mkDataUrl m8 (base64encode b8)), mdx_vocals := some (mkDataUrl m9 (base64encode b9)), sonification := some (mkDataUrl m10 (base64encode b10)), visualization := some (mkDataUrl mV (base64encode bV)) } dir "demucs_guitar".toList wx =
      .ok () (addLog [.savedFile "demucs_guitar.wav".toList (pathJoin dir "demucs_guitar.wav".toList)]
        (wx.setFile (pathJoin dir "demucs_guitar.wav".toList) (some b3))) :=
    fun wx => audioKeyStep_writes rfl hm3 hb3 hne3 (by decide) (hw _)
  have s4 : ∀ wx : World, audioKeyStep o
      { analyzer_result := some (mkDataUrl mA pay), demucs_bass := some (mkDataUrl m1 (base64encode b1)), demucs_drums := some (mkDataUrl m2 (base64encode b2)), demucs_guitar := some (mkDataUrl m3 (base64encode b3)), demucs_other := some (mkDataUrl m4 (base64encode b4)), demucs_piano := some (mkDataUrl m5 (base64encode b5)), demucs_vocals := some (mkDataUrl m6 (base64encode b6)), mdx_instrumental := some (mkDataUrl m7 (base64encode b7)), mdx_other := some (mkDataUrl m8 (base64encode b8)), mdx_vocals := some (mkDataUrl m9 (base64encode b9)), sonification := some (mkDataUrl m10 (base64encode b10)), visualization := some (mkDataUrl mV (base64encode bV)) } dir "demucs_other".toList wx =
      .ok () (addLog [.savedFile "demucs_other.wav".toList (pathJoin dir "demucs_other.wav".toList)]
        (wx.setFile (pathJoin dir "demucs_other.wav".toList) (some b4))) :=
    fun wx => audioKeyStep_writes rfl hm4 hb4 hne4 (by decide) (hw _)
  have s5 : ∀ wx : World, audioKeyStep o
      { analyzer_result := some (mkDataUrl mA pay), demucs_bass := some (mkDataUrl m1 (base64encode b1)), demucs_drums := some (mkDataUrl m2 (base64encode b2)), demucs_guitar := some (mkDataUrl m3 (base64encode b3)), demucs_other := some (mkDataUrl m4 (base64encode b4)), demucs_piano := some (mkDataUrl m5 (base64encode b5)), demucs_vocals := some (mkDataUrl m6 (base64encode b6)), mdx_instrumental := some (mkDataUrl m7 (base64encode b7)), mdx_other := some (mkDataUrl m8 (base64encode b8)), mdx_vocals := some (mkDataUrl m9 (base64encode b9)), sonification := some (mkDataUrl m10 (base64encode b10)), visualization := some (mkDataUrl mV (base64encode bV)) } dir "demucs_piano".toList wx =
      .ok () (addLog [.savedFile "demucs_piano.wav".toList (pathJoin dir "demucs_piano.wav".toList)]
        (wx.setFile (pathJoin dir "demucs_piano.wav".toList) (some b5))) :=
    fun wx => audioKeyStep_writes rfl hm5 hb5 hne5 (by decide) (hw _)
  have s6 : ∀ wx : World, audioKeyStep o
      { analyzer_result := some (mkDataUrl mA pay), demucs_bass := some (mkDataUrl m1 (base64encode b1)), demucs_drums := some (mkDataUrl m2 (base64encode b2)), demucs_guitar := some (mkDataUrl m3 (base64encode b3)), demucs_other := some (mkDataUrl m4 (base64encode b4)), demucs_piano := some (mkDataUrl m5 (base64encode b5)), demucs_vocals := some (mkDataUrl m6 (base64encode b6)), mdx_instrumental := some (mkDataUrl m7 (base64encode b7)), mdx_other := some (mkDataUrl m8 (base64encode b8)), mdx_vocals := some (mkDataUrl m9 (base64encode b9)), sonification := some (mkDataUrl m10 (base64encode b10)), visualization := some (mkDataUrl mV (base64encode bV)) } dir "demucs_vocals".toList wx =
      .ok () (addLog [.savedFile "demucs_vocals.wav".toList (pathJoin dir "demucs_vocals.wav".toList)]
        (wx.setFile (pathJoin dir "demucs_vocals.wav".toList) (some b6))) :=
    fun wx => audioKeyStep_writes rfl hm6 hb6 hne6 (by decide) (hw _)
  have s7 : ∀ wx : World, audioKeyStep o
      { analyzer_result := some (mkDataUrl mA pay), demucs_bass := some (mkDataUrl m1 (base64encode b1)), demucs_drums := some (mkDataUrl m2 (base64encode b2)), demucs_guitar := some (mkDataUrl m3 (base64encode b3)), demucs_other := some (mkDataUrl m4 (base64encode b4)), demucs_piano := some (mkDataUrl m5 (base64encode b5)), demucs_vocals := some (mkDataUrl m6 (base64encode b6)), mdx_instrumental := some (mkDataUrl m7 (base64encode b7)), mdx_other := some (mkDataUrl m8 (base64encode b8)), mdx_vocals := some (mkDataUrl m9 (base64encode b9)), sonification := some (mkDataUrl m10 (base64encode b10)), visualization := some (mkDataUrl mV (base64encode bV)) } dir "mdx_instrumental".toList wx =
      .ok () (addLog [.savedFile "mdx_instrumental.wav".toList (pathJoin dir "mdx_instrumental.wav".toList)]
        (wx.setFile (pathJoin dir "mdx_instrumental.wav".toList) (some b7))) :=
    fun wx => audioKeyStep_writes rfl hm7 hb7 hne7 (by decide) (hw _)
  have s8 : ∀ wx : World, audioKeyStep o
      { analyzer_result := some (mkDataUrl mA pay), demucs_bass := some (mkDataUrl m1 (base64encode b1)), demucs_drums := some (mkDataUrl m2 (base64encode b2)), demucs_guitar := some (mkDataUrl m3 (base64encode b3)), demucs_other := some (mkDataUrl m4 (base64encode b4)), demucs_piano := some (mkDataUrl m5 (base64encode b5)), demucs_vocals := some (mkDataUrl m6 (base64encode b6)), mdx_instrumental := some (mkDataUrl m7 (base64encode b7)), mdx_other := some (mkDataUrl m8 (base64encode b8)), mdx_vocals := some (mkDataUrl m9 (base64encode b9)), sonification := some (mkDataUrl m10 (base64encode b10)), visualization := some (mkDataUrl mV (base64encode bV)) } dir "mdx_other".toList wx =
      .ok () (addLog [.savedFile "mdx_other.wav".toList (pathJoin dir "mdx_other.wav".toList)]
        (wx.setFile (pathJoin dir "mdx_other.wav".toList) (some b8))) :=
    fun wx => audioKeyStep_writes rfl hm8 hb8 hne8 (by decide) (hw _)
  have s9 : ∀ wx : World, audioKeyStep o
      { analyzer_result := some (mkDataUrl mA pay), demucs_bass := some (mkDataUrl m1 (base64encode b1)), demucs_drums := some (mkDataUrl m2 (base64encode b2)), demucs_guitar := some (mkDataUrl m3 (base64encode b3)), demucs_other := some (mkDataUrl m4 (base64encode b4)), demucs_piano := some (mkDataUrl m5 (base64encode b5)), demucs_vocals := some (mkDataUrl m6 (base64encode b6)), mdx_instrumental := some (mkDataUrl m7 (base64encode b7)), mdx_other := some (mkDataUrl m8 (base64encode b8)), mdx_vocals := some (mkDataUrl m9 (base64encode b9)), sonification := some (mkDataUrl m10 (base64encode b10)), visualization := some (mkDataUrl mV (base64encode bV)) } dir "mdx_vocals".toList wx =
      .ok () (addLog [.savedFile "mdx_vocals.wav".toList (pathJoin dir "mdx_vocals.wav".toList)]
        (wx.setFile (pathJoin dir "mdx_vocals.wav".toList) (some b9))) :=
    fun wx => audioKeyStep_writes rfl hm9 hb9 hne9 (by decide) (hw _)
  have s10 : ∀ wx : World, audioKeyStep o
      { analyzer_result := some (mkDataUrl mA pay), demucs_bass := some (mkDataUrl m1 (base64encode b1)), demucs_drums := some (mkDataUrl m2 (base64encode b2)), demucs_guitar := some (mkDataUrl m3 (base64encode b3)), demucs_other := some (mkDataUrl m4 (base64encode b4)), demucs_piano := some (mkDataUrl m5 (base64encode b5)), demucs_vocals := some (mkDataUrl m6 (base64encode b6)), mdx_instrumental := some (mkDataUrl m7 (base64encode b7)), mdx_other := some (mkDataUrl m8 (base64encode b8)), mdx_vocals := some (mkDataUrl m9 (base64encode b9)), sonification := some (mkDataUrl m10 (base64encode b10)), visualization := some (mkDataUrl mV (base64encode bV)) } dir "sonification".toList wx =
      .ok () (addLog [.savedFile "sonification.mp3".toList (pathJoin dir "sonification.mp3".toList)]
        (wx.setFile (pathJoin dir "sonification.mp3".toList) (some b10))) :=
    fun wx => audioKeyStep_writes rfl hm10 hb10 hne10 (by decide) (hw _)
  have heq : processAnalysisResults codec o
      { output := some { analyzer_result := some (mkDataUrl mA pay), demucs_bass := some (mkDataUrl m1 (base64encode b1)), demucs_drums := some (mkDataUrl m2 (base64encode b2)), demucs_guitar := some (mkDataUrl m3 (base64encode b3)), demucs_other := some (mkDataUrl m4 (base64encode b4)), demucs_piano := some (mkDataUrl m5 (base64encode b5)), demucs_vocals := some (mkDataUrl m6 (base64encode b6)), mdx_instrumental := some (mkDataUrl m7 (base64encode b7)), mdx_other := some (mkDataUrl m8 (base64encode b8)), mdx_vocals := some (mkDataUrl m9 (base64encode b9)), sonification := some (mkDataUrl m10 (base64encode b10)), visualization := some (mkDataUrl mV (base64encode bV)) } }
      dir initWorld = .ok ()
      (addLog [.finishedAll] (addLog [.savedFile "sonification.mp3".toList (pathJoin dir "sonification.mp3".toList)] ((addLog [.savedFile "mdx_vocals.wav".toList (pathJoin dir "mdx_vocals.wav".toList)] ((addLog [.savedFile "mdx_other.wav".toList (pathJoin dir "mdx_other.wav".toList)] ((addLog [.savedFile "mdx_instrumental.wav".toList (pathJoin dir "mdx_instrumental.wav".toList)] ((addLog [.savedFile "demucs_vocals.wav".toList (pathJoin dir "demucs_vocals.wav".toList)] ((addLog [.savedFile "demucs_piano.wav".toList (pathJoin dir "demucs_piano.wav".toList)] ((addLog [.savedFile "demucs_other.wav".toList (pathJoin dir "demucs_other.wav".toList)] ((addLog [.savedFile "demucs_guitar.wav".toList (pathJoin dir "demucs_guitar.wav".toList)] ((addLog [.savedFile "demucs_drums.wav".toList (pathJoin dir "demucs_drums.wav".toList)] ((addLog [.savedFile "demucs_bass.wav".toList (pathJoin dir "demucs_bass.wav".toList)] ((addLog [.audioHeader] (addLog [.savedFile "visualization.png".toList (pathJoin dir "visualization.png".toList)] ((addLog [.savedErrorFile (pathJoin dir errorFileName)] ((addLog [.analyzerProcessError, .problematicJson (pay.take 50)] (addLog [.ensuredDir dir] (initWorld.setDir dir))).setFile (pathJoin dir errorFileName) (some (errHeaderDecoded ++ base64decode pay)))).setFile (pathJoin dir "visualization.png".toList) (some bV)))).setFile (pathJoin dir "demucs_bass.wav".toList) (some b1))).setFile (pathJoin dir "demucs_drums.wav".toList) (some b2))).setFile (pathJoin dir "demucs_guitar.wav".toList) (some b3))).setFile (pathJoin dir "demucs_other.wav".toList) (some b4))).setFile (pathJoin dir "demucs_piano.wav".toList) (some b5))).setFile (pathJoin dir "demucs_vocals.wav".toList) (some b6))).setFile (pathJoin dir "mdx_instrumental.wav".toList) (some b7))).setFile (pathJoin dir "mdx_other.wav".toList) (some b8))).setFile (pathJoin dir "mdx_vocals.wav".toList) (some b9))).setFile (pathJoin dir "sonification.mp3".toList) (some b10)))) := by
    simp only [processAnalysisResults, fsMkdir, hmk, Bool.false_eq_true, if_false,
      sE, sV, audioFileKeys, audioLoop, s1, s2, s3, s4, s5, s6, s7, s8, s9, s10]
  have neq_0_1 : pathJoin dir errorFileName ≠ pathJoin dir "visualization.png".toList :=
    fun h => absurd (pathJoin_inj.mp h) (by decide)
  have neq_0_2 : pathJoin dir errorFileName ≠ pathJoin dir "demucs_bass.wav".toList :=
    fun h => absurd (pathJoin_inj.mp h) (by decide)
  have neq_0_3 : pathJoin dir errorFileName ≠ pathJoin dir "demucs_drums.wav".toList :=
    fun h => absurd (pathJoin_inj.mp h) (by decide)
  have neq_0_4 : pathJoin dir errorFileName ≠ pathJoin dir "demucs_guitar.wav".toList :=
    fun h => absurd (pathJoin_inj.mp h) (by decide)
  have neq_0_5 : pathJoin dir errorFileName ≠ pathJoin dir "demucs_other.wav".toList :=
    fun h => absurd (pathJoin_inj.mp h) (by decide)
  have neq_0_6 : pathJoin dir errorFileName ≠ pathJoin dir "demucs_piano.wav".toList :=
    fun h => absurd (pathJoin_inj.mp h) (by decide)
  have neq_0_7 : pathJoin dir errorFileName ≠ pathJoin dir "demucs_vocals.wav".toList :=
    fun h => absurd (pathJoin_inj.mp h) (by decide)
  have neq_0_8 : pathJoin dir errorFileName ≠ pathJoin dir "mdx_instrumental.wav".toList :=
    fun h => absurd (pathJoin_inj.mp h) (by decide)
  have neq_0_9 : pathJoin dir errorFileName ≠ pathJoin dir "mdx_other.wav".toList :=
    fun h => absurd (pathJoin_inj.mp h) (by decide)
  have neq_0_10 : pathJoin dir errorFileName ≠ pathJoin dir "mdx_vocals.wav".toList :=
    fun h => absurd (pathJoin_inj.mp h) (by decide)
  have neq_0_11 : pathJoin dir errorFileName ≠ pathJoin dir "sonification.mp3".toList :=
    fun h => absurd (pathJoin_inj.mp h) (by decide)
  have neq_1_2 : pathJoin dir "visualization.png".toList ≠ pathJoin dir "demucs_bass.wav".toList :=
    fun h => absurd (pathJoin_inj.mp h) (by decide)
  have neq_1_3 : pathJoin dir "visualization.png".toList ≠ pathJoin dir "demucs_drums.wav".toList :=
    fun h => absurd (pathJoin_inj.mp h) (by decide)
  have neq_1_4 : pathJoin dir "visualization.png".toList ≠ pathJoin dir "demucs_guitar.wav".toList :=
    fun h => absurd (pathJoin_inj.mp h) (by decide)
  have neq_1_5 : pathJoin dir "visualization.png".toList ≠ pathJoin dir "demucs_other.wav".toList :=
    fun h => absurd (pathJoin_inj.mp h) (by decide)
  have neq_1_6 : pathJoin dir "visualization.png".toList ≠ pathJoin dir "demucs_piano.wav".toList :=
    fun h => absurd (pathJoin_inj.mp h) (by decide)
  have neq_1_7 : pathJoin dir "visualization.png".toList ≠ pathJoin dir "demucs_vocals.wav".toList :=
    fun h => absurd (pathJoin_inj.mp h) (by decide)
  have neq_1_8 : pathJoin dir "visualization.png".toList ≠ pathJoin dir "mdx_instrumental.wav".toList :=
    fun h => absurd (pathJoin_inj.mp h) (by decide)
  have neq_1_9 : pathJoin dir "visualization.png".toList ≠ pathJoin dir "mdx_other.wav".toList :=
    fun h => absurd (pathJoin_inj.mp h) (by decide)
  have neq_1_10 : pathJoin dir "visualization.png".toList ≠ pathJoin dir "mdx_vocals.wav".toList :=
    fun h => absurd (pathJoin_inj.mp h) (by decide)
  have neq_1_11 : pathJoin dir "visualization.png".toList ≠ pathJoin dir "sonification.mp3".toList :=
    fun h => absurd (pathJoin_inj.mp h) (by decide)
  have neq_2_3 : pathJoin dir "demucs_bass.wav".toList ≠ pathJoin dir "demucs_drums.wav".toList :=
    fun h => absurd (pathJoin_inj.mp h) (by decide)
  have neq_2_4 : pathJoin dir "demucs_bass.wav".toList ≠ pathJoin dir "demucs_guitar.wav".toList :=
    fun h => absurd (pathJoin_inj.mp h) (by decide)
  have neq_2_5 : pathJoin dir "demucs_bass.wav".toList ≠ pathJoin dir "demucs_other.wav".toList :=
    fun h => absurd (pathJoin_inj.mp h) (by decide)
  have neq_2_6 : pathJoin dir "demucs_bass.wav".toList ≠ pathJoin dir "demucs_piano.wav".toList :=
    fun h => absurd (pathJoin_inj.mp h) (by decide)
  have neq_2_7 : pathJoin dir "demucs_bass.wav".toList ≠ pathJoin dir "demucs_vocals.wav".toList :=
    fun h => absurd (pathJoin_inj.mp h) (by decide)
  have neq_2_8 : pathJoin dir "demucs_bass.wav".toList ≠ pathJoin dir "mdx_instrumental.wav".toList :=
    fun h => absurd (pathJoin_inj.mp h) (by decide)
  have neq_2_9 : pathJoin dir "demucs_bass.wav".toList ≠ pathJoin dir "mdx_other.wav".toList :=
    fun h => absurd (pathJoin_inj.mp h) (by decide)
  have neq_2_10 : pathJoin dir "demucs_bass.wav".toList ≠ pathJoin dir "mdx_vocals.wav".toList :=
    fun h => absurd (pathJoin_inj.mp h) (by decide)
  have neq_2_11 : pathJoin dir "demucs_bass.wav".toList ≠ pathJoin dir "sonification.mp3".toList :=
    fun h => absurd (pathJoin_inj.mp h) (by decide)
  have neq_3_4 : pathJoin dir "demucs_drums.wav".toList ≠ pathJoin dir "demucs_guitar.wav".toList :=
    fun h => absurd (pathJoin_inj.mp h) (by decide)
  have neq_3_5 : pathJoin dir "demucs_drums.wav".toList ≠ pathJoin dir "demucs_other.wav".toList :=
    fun h => absurd (pathJoin_inj.mp h) (by decide)
  have neq_3_6 : pathJoin dir "demucs_drums.wav".toList ≠ pathJoin dir "demucs_piano.wav".toList :=
    fun h => absurd (pathJoin_inj.mp h) (by decide)
  have neq_3_7 : pathJoin dir "demucs_drums.wav".toList ≠ pathJoin dir "demucs_vocals.wav".toList :=
    fun h => absurd (pathJoin_inj.mp h) (by decide)
  have neq_3_8 : pathJoin dir "demucs_drums.wav".toList ≠ pathJoin dir "mdx_instrumental.wav".toList :=
    fun h => absurd (pathJoin_inj.mp h) (by decide)
  have neq_3_9 : pathJoin dir "demucs_drums.wav".toList ≠ pathJoin dir "mdx_other.wav".toList :=
    fun h => absurd (pathJoin_inj.mp h) (by decide)
  have neq_3_10 : pathJoin dir "demucs_drums.wav".toList ≠ pathJoin dir "mdx_vocals.wav".toList :=
    fun h => absurd (pathJoin_inj.mp h) (by decide)
  have neq_3_11 : pathJoin dir "demucs_drums.wav".toList ≠ pathJoin dir "sonification.mp3".toList :=
    fun h => absurd (pathJoin_inj.mp h) (by decide)
  have neq_4_5 : pathJoin dir "demucs_guitar.wav".toList ≠ pathJoin dir "demucs_other.wav".toList :=
    fun h => absurd (pathJoin_inj.mp h) (by decide)
  have neq_4_6 : pathJoin dir "demucs_guitar.wav".toList ≠ pathJoin dir "demucs_piano.wav".toList :=
    fun h => absurd (pathJoin_inj.mp h) (by decide)
  have neq_4_7 : pathJoin dir "demucs_guitar.wav".toList ≠ pathJoin dir "demucs_vocals.wav".toList :=
    fun h => absurd (pathJoin_inj.mp h) (by decide)
  have neq_4_8 : pathJoin dir "demucs_guitar.wav".toList ≠ pathJoin dir "mdx_instrumental.wav".toList :=
    fun h => absurd (pathJoin_inj.mp h) (by decide)
  have neq_4_9 : pathJoin dir "demucs_guitar.wav".toList ≠ pathJoin dir "mdx_other.wav".toList :=
    fun h => absurd (pathJoin_inj.mp h) (by decide)
  have neq_4_10 : pathJoin dir "demucs_guitar.wav".toList ≠ pathJoin dir "mdx_vocals.wav".toList :=
    fun h => absurd (pathJoin_inj.mp h) (by decide)
  have neq_4_11 : pathJoin dir "demucs_guitar.wav".toList ≠ pathJoin dir "sonification.mp3".toList :=
    fun h => absurd (pathJoin_inj.mp h) (by decide)
  have neq_5_6 : pathJoin dir "demucs_other.wav".toList ≠ pathJoin dir "demucs_piano.wav".toList :=
    fun h => absurd (pathJoin_inj.mp h) (by decide)
  have neq_5_7 : pathJoin dir "demucs_other.wav".toList ≠ pathJoin dir "demucs_vocals.wav".toList :=
    fun h => absurd (pathJoin_inj.mp h) (by decide)
  have neq_5_8 : pathJoin dir "demucs_other.wav".toList ≠ pathJoin dir "mdx_instrumental.wav".toList :=
    fun h => absurd (pathJoin_inj.mp h) (by decide)
  have neq_5_9 : pathJoin dir "demucs_other.wav".toList ≠ pathJoin dir "mdx_other.wav".toList :=
    fun h => absurd (pathJoin_inj.mp h) (by decide)
  have neq_5_10 : pathJoin dir "demucs_other.wav".toList ≠ pathJoin dir "mdx_vocals.wav".toList :=
    fun h => absurd (pathJoin_inj.mp h) (by decide)
  have neq_5_11 : pathJoin dir "demucs_other.wav".toList ≠ pathJoin dir "sonification.mp3".toList :=
    fun h => absurd (pathJoin_inj.mp h) (by decide)
  have neq_6_7 : pathJoin dir "demucs_piano.wav".toList ≠ pathJoin dir "demucs_vocals.wav".toList :=
    fun h => absurd (pathJoin_inj.mp h) (by decide)
  have neq_6_8 : pathJoin dir "demucs_piano.wav".toList ≠ pathJoin dir "mdx_instrumental.wav".toList :=
    fun h => absurd (pathJoin_inj.mp h) (by decide)
  have neq_6_9 : pathJoin dir "demucs_piano.wav".toList ≠ pathJoin dir "mdx_other.wav".toList :=
    fun h => absurd (pathJoin_inj.mp h) (by decide)
  have neq_6_10 : pathJoin dir "demucs_piano.wav".toList ≠ pathJoin dir "mdx_vocals.wav".toList :=
    fun h => absurd (pathJoin_inj.mp h) (by decide)
  have neq_6_11 : pathJoin dir "demucs_piano.wav".toList ≠ pathJoin dir "sonification.mp3".toList :=
    fun h => absurd (pathJoin_inj.mp h) (by decide)
  have neq_7_8 : pathJoin dir "demucs_vocals.wav".toList ≠ pathJoin dir "mdx_instrumental.wav".toList :=
    fun h => absurd (pathJoin_inj.mp h) (by decide)
  have neq_7_9 : pathJoin dir "demucs_vocals.wav".toList ≠ pathJoin dir "mdx_other.wav".toList :=
    fun h => absurd (pathJoin_inj.mp h) (by decide)
  have neq_7_10 : pathJoin dir "demucs_vocals.wav".toList ≠ pathJoin dir "mdx_vocals.wav".toList :=
    fun h => absurd (pathJoin_inj.mp h) (by decide)
  have neq_7_11 : pathJoin dir "demucs_vocals.wav".toList ≠ pathJoin dir "sonification.mp3".toList :=
    fun h => absurd (pathJoin_inj.mp h) (by decide)
  have neq_8_9 : pathJoin dir "mdx_instrumental.wav".toList ≠ pathJoin dir "mdx_other.wav".toList :=
    fun h => absurd (pathJoin_inj.mp h) (by decide)
  have neq_8_10 : pathJoin dir "mdx_instrumental.wav".toList ≠ pathJoin dir "mdx_vocals.wav".toList :=
    fun h => absurd (pathJoin_inj.mp h) (by decide)
  have neq_8_11 : pathJoin dir "mdx_instrumental.wav".toList ≠ pathJoin dir "sonification.mp3".toList :=
    fun h => absurd (pathJoin_inj.mp h) (by decide)
  have neq_9_10 : pathJoin dir "mdx_other.wav".toList ≠ pathJoin dir "mdx_vocals.wav".toList :=
    fun h => absurd (pathJoin_inj.mp h) (by decide)
  have neq_9_11 : pathJoin dir "mdx_other.wav".toList ≠ pathJoin dir "sonification.mp3".toList :=
    fun h => absurd (pathJoin_inj.mp h) (by decide)
  have neq_10_11 : pathJoin dir "mdx_vocals.wav".toList ≠ pathJoin dir "sonification.mp3".toList :=
    fun h => absurd (pathJoin_inj.mp h) (by decide)
  have neqA_0 : pathJoin dir "analysis.json".toList ≠ pathJoin dir errorFileName :=
    fun h => absurd (pathJoin_inj.mp h) (by decide)
  have neqA_1 : pathJoin dir "analysis.json".toList ≠ pathJoin dir "visualization.png".toList :=
    fun h => absurd (pathJoin_inj.mp h) (by decide)
  have neqA_2 : pathJoin dir "analysis.json".toList ≠ pathJoin dir "demucs_bass.wav".toList :=
    fun h => absurd (pathJoin_inj.mp h) (by decide)
  have neqA_3 : pathJoin dir "analysis.json".toList ≠ pathJoin dir "demucs_drums.wav".toList :=
    fun h => absurd (pathJoin_inj.mp h) (by decide)
  have neqA_4 : pathJoin dir "analysis.json".toList ≠ pathJoin dir "demucs_guitar.wav".toList :=
    fun h => absurd (pathJoin_inj.mp h) (by decide)
  have neqA_5 : pathJoin dir "analysis.json".toList ≠ pathJoin dir "demucs_other.wav".toList :=
    fun h => absurd (pathJoin_inj.mp h) (by decide)
  have neqA_6 : pathJoin dir "analysis.json".toList ≠ pathJoin dir "demucs_piano.wav".toList :=
    fun h => absurd (pathJoin_inj.mp h) (by decide)
  have neqA_7 : pathJoin dir "analysis.json".toList ≠ pathJoin dir "demucs_vocals.wav".toList :=
    fun h => absurd (pathJoin_inj.mp h) (by decide)
  have neqA_8 : pathJoin dir "analysis.json".toList ≠ pathJoin dir "mdx_instrumental.wav".toList :=
    fun h => absurd (pathJoin_inj.mp h) (by decide)
  have neqA_9 : pathJoin dir "analysis.json".toList ≠ pathJoin dir "mdx_other.wav".toList :=
    fun h => absurd (pathJoin_inj.mp h) (by decide)
  have neqA_10 : pathJoin dir "analysis.json".toList ≠ pathJoin dir "mdx_vocals.wav".toList :=
    fun h => absurd (pathJoin_inj.mp h) (by decide)
  have neqA_11 : pathJoin dir "analysis.json".toList ≠ pathJoin dir "sonification.mp3".toList :=
    fun h => absurd (pathJoin_inj.mp h) (by decide)
  refine ⟨_, heq, ?_, ?_, ?_, ?_, ?_, ?_, ?_, ?_, ?_, ?_, ?_, ?_, ?_, ?_⟩
  · simp only [addLog_files, setFile_files_other _ _ neq_0_11, setFile_files_other _ _ neq_0_10, setFile_files_other _ _ neq_0_9, setFile_files_other _ _ neq_0_8, setFile_files_other _ _ neq_0_7, setFile_files_other _ _ neq_0_6, setFile_files_other _ _ neq_0_5, setFile_files_other _ _ neq_0_4, setFile_files_other _ _ neq_0_3, setFile_files_other _ _ neq_0_2, setFile_files_other _ _ neq_0_1, setFile_files_same]
  · simp only [addLog_files, setFile_files_other _ _ neqA_11, setFile_files_other _ _ neqA_10, setFile_files_other _ _ neqA_9, setFile_files_other _ _ neqA_8, setFile_files_other _ _ neqA_7, setFile_files_other _ _ neqA_6, setFile_files_other _ _ neqA_5, setFile_files_other _ _ neqA_4, setFile_files_other _ _ neqA_3, setFile_files_other _ _ neqA_2, setFile_files_other _ _ neqA_1, setFile_files_other _ _ neqA_0, setDir_files]
    rfl
  · simp only [addLog_files, setFile_files_other _ _ neq_1_11, setFile_files_other _ _ neq_1_10, setFile_files_other _ _ neq_1_9, setFile_files_other _ _ neq_1_8, setFile_files_other _ _ neq_1_7, setFile_files_other _ _ neq_1_6, setFile_files_other _ _ neq_1_5, setFile_files_other _ _ neq_1_4, setFile_files_other _ _ neq_1_3, setFile_files_other _ _ neq_1_2, setFile_files_same]
  · simp only [addLog_files, setFile_files_other _ _ neq_2_11, setFile_files_other _ _ neq_2_10, setFile_files_other _ _ neq_2_9, setFile_files_other _ _ neq_2_8, setFile_files_other _ _ neq_2_7, setFile_files_other _ _ neq_2_6, setFile_files_other _ _ neq_2_5, setFile_files_other _ _ neq_2_4, setFile_files_other _ _ neq_2_3, setFile_files_same]
  · simp only [addLog_files, setFile_files_other _ _ neq_3_11, setFile_files_other _ _ neq_3_10, setFile_files_other _ _ neq_3_9, setFile_files_other _ _ neq_3_8, setFile_files_other _ _ neq_3_7, setFile_files_other _ _ neq_3_6, setFile_files_other _ _ neq_3_5, setFile_files_other _ _ neq_3_4, setFile_files_same]
  · simp only [addLog_files, setFile_files_other _ _ neq_4_11, setFile_files_other _ _ neq_4_10, setFile_files_other _ _ neq_4_9, setFile_files_other _ _ neq_4_8, setFile_files_other _ _ neq_4_7, setFile_files_other _ _ neq_4_6, setFile_files_other _ _ neq_4_5, setFile_files_same]
  · simp only [addLog_files, setFile_files_other _ _ neq_5_11, setFile_files_other _ _ neq_5_10, setFile_files_other _ _ neq_5_9, setFile_files_other _ _ neq_5_8, setFile_files_other _ _ neq_5_7, setFile_files_other _ _ neq_5_6, setFile_files_same]
  · simp only [addLog_files, setFile_files_other _ _ neq_6_11, setFile_files_other _ _ neq_6_10, setFile_files_other _ _ neq_6_9, setFile_files_other _ _ neq_6_8, setFile_files_other _ _ neq_6_7, setFile_files_same]
  · simp only [addLog_files, setFile_files_other _ _ neq_7_11, setFile_files_other _ _ neq_7_10, setFile_files_other _ _ neq_7_9, setFile_files_other _ _ neq_7_8, setFile_files_same]
  · simp only [addLog_files, setFile_files_other _ _ neq_8_11, setFile_files_other _ _ neq_8_10, setFile_files_other _ _ neq_8_9, setFile_files_same]
  · simp only [addLog_files, setFile_files_other _ _ neq_9_11, setFile_files_other _ _ neq_9_10, setFile_files_same]
  · simp only [addLog_files, setFile_files_other _ _ neq_10_11, setFile_files_same]
  · simp only [addLog_files, setFile_files_same]
  · intro q h0 h1 h2 h3 h4 h5 h6 h7 h8 h9 h10 h11
    simp only [addLog_files, setFile_files_other _ _ h11, setFile_files_other _ _ h10, setFile_files_other _ _ h9, setFile_files_other _ _ h8, setFile_files_other _ _ h7, setFile_files_other _ _ h6, setFile_files_other _ _ h5, setFile_files_other _ _ h4, setFile_files_other _ _ h3, setFile_files_other _ _ h2, setFile_files_other _ _ h1, setFile_files_other _ _ h0, setDir_files]
    rfl

/-- Witness for amended C4: the payload `!!!` leniently decodes to no bytes,
which the trivial codec cannot parse; every other field is a valid data
URL. -/
theorem claim_C4_unparseable_analyzer_writes_diagnostic_witness :
    (("!!!".toList : Str) ≠ [] ∧
      unitCodec.parse (base64decode "!!!".toList) = none ∧
      (∀ p, oracleOk.writeFails p = false)) ∧
      ∃ w', processAnalysisResults unitCodec oracleOk
          { output := some { analyzer_result := some (mkDataUrl "application/json".toList "!!!".toList), demucs_bass := some (mkDataUrl "audio/wav".toList (base64encode [77, 97, 110])), demucs_drums := some (mkDataUrl "audio/wav".toList (base64encode [77, 97, 110])), demucs_guitar := some (mkDataUrl "audio/wav".toList (base64encode [77, 97, 110])), demucs_other := some (mkDataUrl "audio/wav".toList (base64encode [77, 97, 110])), demucs_piano := some (mkDataUrl "audio/wav".toList (base64encode [77, 97, 110])), demucs_vocals := some (mkDataUrl "audio/wav".toList (base64encode [77, 97, 110])), mdx_instrumental := some (mkDataUrl "audio/wav".toList (base64encode [77, 97, 110])), mdx_other := some (mkDataUrl "audio/wav".toList (base64encode [77, 97, 110])), mdx_vocals := some (mkDataUrl "audio/wav".toList (base64encode [77, 97, 110])), sonification := some (mkDataUrl "audio/wav".toList (base64encode [77, 97, 110])), visualization := some (mkDataUrl "image/png".toList (base64encode [77, 97, 110])) } }
          OUTPUT_DIRECTORY initWorld = .ok () w' ∧
        w'.files (pathJoin OUTPUT_DIRECTORY errorFileName) =
          some (errHeaderDecoded ++ base64decode "!!!".toList) ∧
        w'.files (pathJoin OUTPUT_DIRECTORY "analysis.json".toList) = none ∧
        w'.files (pathJoin OUTPUT_DIRECTORY "visualization.png".toList) = some [77, 97, 110] ∧
        w'.files (pathJoin OUTPUT_DIRECTORY "demucs_bass.wav".toList) = some [77, 97, 110] ∧
        w'.files (pathJoin OUTPUT_DIRECTORY "demucs_drums.wav".toList) = some [77, 97, 110] ∧
        w'.files (pathJoin OUTPUT_DIRECTORY "demucs_guitar.wav".toList) = some [77, 97, 110] ∧
        w'.files (pathJoin OUTPUT_DIRECTORY "demucs_other.wav".toList) = some [77, 97, 110] ∧
        w'.files (pathJoin OUTPUT_DIRECTORY "demucs_piano.wav".toList) = some [77, 97, 110] ∧
        w'.files (pathJoin OUTPUT_DIRECTORY "demucs_vocals.wav".toList) = some [77, 97, 110] ∧
        w'.files (pathJoin OUTPUT_DIRECTORY "mdx_instrumental.wav".toList) = some [77, 97, 110] ∧
        w'.files (pathJoin OUTPUT_DIRECTORY "mdx_other.wav".toList) = some [77, 97, 110] ∧
        w'.files (pathJoin OUTPUT_DIRECTORY "mdx_vocals.wav".toList) = some [77, 97, 110] ∧
        w'.files (pathJoin OUTPUT_DIRECTORY "sonification.mp3".toList) = some [77, 97, 110] ∧
        (∀ q, q ≠ pathJoin OUTPUT_DIRECTORY errorFileName → q ≠ pathJoin OUTPUT_DIRECTORY "visualization.png".toList → q ≠ pathJoin OUTPUT_DIRECTORY "demucs_bass.wav".toList → q ≠ pathJoin OUTPUT_DIRECTORY "demucs_drums.wav".toList → q ≠ pathJoin OUTPUT_DIRECTORY "demucs_guitar.wav".toList → q ≠ pathJoin OUTPUT_DIRECTORY "demucs_other.wav".toList → q ≠ pathJoin OUTPUT_DIRECTORY "demucs_piano.wav".toList → q ≠ pathJoin OUTPUT_DIRECTORY "demucs_vocals.wav".toList → q ≠ pathJoin OUTPUT_DIRECTORY "mdx_instrumental.wav".toList → q ≠ pathJoin OUTPUT_DIRECTORY "mdx_other.wav".toList → q ≠ pathJoin OUTPUT_DIRECTORY "mdx_vocals.wav".toList → q ≠ pathJoin OUTPUT_DIRECTORY "sonification.mp3".toList →
          w'.files q = none) :=
  ⟨⟨by decide, by decide, fun _ => rfl⟩,
    claim_C4_unparseable_analyzer_writes_diagnostic unitCodec oracleOk
      OUTPUT_DIRECTORY "application/json".toList "image/png".toList
      "audio/wav".toList "audio/wav".toList "audio/wav".toList "audio/wav".toList "audio/wav".toList "audio/wav".toList "audio/wav".toList "audio/wav".toList "audio/wav".toList "audio/wav".toList
      "!!!".toList
      [77,97,110] [77,97,110] [77,97,110] [77,97,110] [77,97,110] [77,97,110] [77,97,110] [77,97,110] [77,97,110] [77,97,110] [77,97,110]
      (by decide) (by decide)
      (by decide) (by decide) (by decide) (by decide) (by decide) (by decide) (by decide) (by decide) (by decide) (by decide)
      (by decide) (by decide)
      (by decide) (by decide)
      (by decide) (by decide)
      (by decide) (by decide)
      (by decide) (by decide)
      (by decide) (by decide)
      (by decide) (by decide)
      (by decide) (by decide)
      (by decide) (by decide)
      (by decide) (by decide)
      (by decide) (by decide)
      (by decide) (by decide)
      (fun _ => rfl) rfl⟩

/-- **C4, counterexample.** The bundle `respDollar` has `analyzer_result`
payload `bnVsbA$==` containing the invalid base64 character `$`; Node's
lenient decoder skips it, the result decodes to the JSON text `null`, and
the code writes `analysis.json` and no diagnostic file — contradicting the
claim that any bundle with invalid base64 in `analyzer_result` yields the
diagnostic file and no `analysis.json`. -/
theorem claim_C4_counterexample :
    (processAnalysisResults unitCodec oracleOk respDollar OUTPUT_DIRECTORY
        initWorld).world.files (pathJoin OUTPUT_DIRECTORY "analysis.json".toList) = some nullJsonBytes ∧
      (processAnalysisResults unitCodec oracleOk respDollar OUTPUT_DIRECTORY
        initWorld).world.files (pathJoin OUTPUT_DIRECTORY errorFileName) = none := by
  decide

end Extract
